import Mathlib

/-! # DistributedWordCounter: `src/utils`

A shallow embedding of the Go package `utils` (`ec2.go`, `sqs.go`, `common.go`).

Conventions of the embedding.

* A provider (the value behind one of the `...API` interfaces) is a record of
  methods over an explicit provider state `σ`: a method takes the context, the
  request and the state before the call, and gives a `Reply`: the state after
  the call, the result pointer (`none` is Go's `nil`) and the error (`none` is
  `nil`).
* Every provider call goes through `World.call`, which also appends the call
  (method, context, request as passed) to the trace `World.calls`.  The number
  and the arguments of the provider calls of an invocation are read off the
  trace.
* A request passed by pointer and mutated by the callee (`input.DryRun = false`)
  is passed by value and handed back in the result (`DryRunResult.input`).  The
  pointer itself is taken to be non-nil, and a provider reads the request it is
  handed without writing to it.
* A pointer-typed field of an SDK struct is an `Option`; dereferencing `nil`
  ends the run with `Outcome.nilDeref`.
* Writes to standard output (`fmt.Println`, `fmt.Printf`) are not part of the
  model; the dereferences made to compute their arguments are.
* SDK structs carry the fields this package reads or writes; response payloads
  this package never inspects are type parameters.
-/

namespace utils

/-! ## Go runtime: errors, contexts, pointers -/

/-- The `smithy.APIError` view of an error: what `ErrorCode()` and
`ErrorMessage()` report. -/
structure APIError where
  Code : String
  Message : String
  deriving DecidableEq, Repr

/-- Method `ErrorCode()` of `smithy.APIError`. -/
def APIError.ErrorCode (e : APIError) : String := e.Code

/-- A non-nil Go `error`: a chain of errors linked by `Unwrap`.  A link either
implements `smithy.APIError` (`api`), or does not and wraps nothing (`plain`),
or does not and wraps another error (`wrap`). -/
inductive GoError where
  | plain (msg : String)
  | api (e : APIError)
  | wrap (msg : String) (inner : GoError)
  deriving DecidableEq, Repr

/-- Walk of `errors.As` down a non-nil chain, with a `smithy.APIError` target:
the first link that implements the interface. -/
def GoError.firstAPIError : GoError → Option APIError
  | .plain _ => none
  | .api e => some e
  | .wrap _ inner => inner.firstAPIError

/-- The call `errors.As(err, &apiErr)` with `var apiErr smithy.APIError`:
`some apiErr` when it reports true, `none` when it reports false (in particular
on a nil `err`). -/
def errorsAs (err : Option GoError) : Option APIError :=
  match err with
  | none => none
  | some e => e.firstAPIError

/-- The condition
`errors.As(err, &apiErr) && apiErr.ErrorCode() == "DryRunOperation"`
shared by the five dry-run retry functions of `ec2.go`. -/
def isDryRunOperation (err : Option GoError) : Bool :=
  match errorsAs err with
  | none => false
  | some apiErr => apiErr.ErrorCode == "DryRunOperation"

/-- A `context.Context`, up to identity. -/
inductive Context where
  | TODO
  | background
  | custom (id : Nat)
  deriving DecidableEq, Repr

/-- How a run of a function that dereferences pointers ends: it returns a
value, or the Go runtime aborts it on a nil pointer dereference. -/
inductive Outcome (α : Type) where
  | ret (a : α)
  | nilDeref
  deriving DecidableEq, Repr

/-- What a provider method gives back: the provider state after the call, the
result pointer and the error. -/
structure Reply (σ ρ : Type) where
  next : σ
  resp : Option ρ
  err : Option GoError
  deriving DecidableEq, Repr

/-- The provider state together with the trace of the provider calls made so
far, oldest first. -/
structure World (σ κ : Type) where
  provider : σ
  calls : List κ
  deriving DecidableEq, Repr

/-- What the caller of a provider method holds after the call. -/
structure Called (σ κ ρ : Type) where
  world : World σ κ
  resp : Option ρ
  err : Option GoError
  deriving DecidableEq, Repr

/-- One provider call: run the method on the current provider state and record
the call in the trace. -/
def World.call {σ κ ρ : Type} (w : World σ κ) (entry : κ) (method : σ → Reply σ ρ) :
    Called σ κ ρ :=
  let r := method w.provider
  { world := { provider := r.next, calls := w.calls ++ [entry] }
    resp := r.resp
    err := r.err }

/-! ## `ec2.go`: request types -/

/-- The SDK type `ec2.MonitorInstancesInput`. -/
structure MonitorInstancesInput where
  InstanceIds : List String
  DryRun : Bool
  deriving DecidableEq, Repr

/-- The SDK type `ec2.UnmonitorInstancesInput`. -/
structure UnmonitorInstancesInput where
  InstanceIds : List String
  DryRun : Bool
  deriving DecidableEq, Repr

/-- The SDK type `ec2.RebootInstancesInput`. -/
structure RebootInstancesInput where
  InstanceIds : List String
  DryRun : Bool
  deriving DecidableEq, Repr

/-- The SDK type `ec2.StartInstancesInput`. -/
structure StartInstancesInput where
  InstanceIds : List String
  AdditionalInfo : Option String
  DryRun : Bool
  deriving DecidableEq, Repr

/-- The SDK type `ec2.StopInstancesInput`. -/
structure StopInstancesInput where
  InstanceIds : List String
  DryRun : Bool
  Force : Bool
  Hibernate : Bool
  deriving DecidableEq, Repr

/-! ## `ec2.go`: provider interfaces and their traces -/

/-- The interface `EC2MonitorInstancesAPI`. -/
structure EC2MonitorInstancesAPI (σ MOut UOut : Type) where
  MonitorInstances : Context → MonitorInstancesInput → σ → Reply σ MOut
  UnmonitorInstances : Context → UnmonitorInstancesInput → σ → Reply σ UOut

/-- A recorded call of an `EC2MonitorInstancesAPI` method. -/
inductive EC2MonitorCall where
  | MonitorInstances (ctx : Context) (params : MonitorInstancesInput)
  | UnmonitorInstances (ctx : Context) (params : UnmonitorInstancesInput)
  deriving DecidableEq, Repr

/-- The interface `EC2RebootInstancesAPI`. -/
structure EC2RebootInstancesAPI (σ Out : Type) where
  RebootInstances : Context → RebootInstancesInput → σ → Reply σ Out

/-- A recorded call of the `EC2RebootInstancesAPI` method. -/
inductive EC2RebootCall where
  | RebootInstances (ctx : Context) (params : RebootInstancesInput)
  deriving DecidableEq, Repr

/-- The interface `EC2StartInstancesAPI`. -/
structure EC2StartInstancesAPI (σ Out : Type) where
  StartInstances : Context → StartInstancesInput → σ → Reply σ Out

/-- A recorded call of the `EC2StartInstancesAPI` method. -/
inductive EC2StartCall where
  | StartInstances (ctx : Context) (params : StartInstancesInput)
  deriving DecidableEq, Repr

/-- The interface `EC2StopInstancesAPI`. -/
structure EC2StopInstancesAPI (σ Out : Type) where
  StopInstances : Context → StopInstancesInput → σ → Reply σ Out

/-- A recorded call of the `EC2StopInstancesAPI` method. -/
inductive EC2StopCall where
  | StopInstances (ctx : Context) (params : StopInstancesInput)
  deriving DecidableEq, Repr

/-! ## `ec2.go`: the five dry-run retry functions -/

/-- What a dry-run retry function leaves behind: the world, the request object
as the function left it, and the returned pair. -/
structure DryRunResult (σ κ ι ρ : Type) where
  world : World σ κ
  input : ι
  resp : Option ρ
  err : Option GoError
  deriving DecidableEq, Repr

/-- The function `EnableMonitoring` of `ec2.go`. -/
def EnableMonitoring {σ MOut UOut : Type} (c : Context)
    (api : EC2MonitorInstancesAPI σ MOut UOut) (input : MonitorInstancesInput)
    (w : World σ EC2MonitorCall) :
    DryRunResult σ EC2MonitorCall MonitorInstancesInput MOut :=
  let r := w.call (.MonitorInstances c input) (api.MonitorInstances c input)
  if isDryRunOperation r.err then
    let input := { input with DryRun := false }
    let r2 := r.world.call (.MonitorInstances c input) (api.MonitorInstances c input)
    { world := r2.world, input := input, resp := r2.resp, err := r2.err }
  else
    { world := r.world, input := input, resp := r.resp, err := r.err }

/-- The function `DisableMonitoring` of `ec2.go`. -/
def DisableMonitoring {σ MOut UOut : Type} (c : Context)
    (api : EC2MonitorInstancesAPI σ MOut UOut) (input : UnmonitorInstancesInput)
    (w : World σ EC2MonitorCall) :
    DryRunResult σ EC2MonitorCall UnmonitorInstancesInput UOut :=
  let r := w.call (.UnmonitorInstances c input) (api.UnmonitorInstances c input)
  if isDryRunOperation r.err then
    let input := { input with DryRun := false }
    let r2 := r.world.call (.UnmonitorInstances c input) (api.UnmonitorInstances c input)
    { world := r2.world, input := input, resp := r2.resp, err := r2.err }
  else
    { world := r.world, input := input, resp := r.resp, err := r.err }

/-- The function `RebootInstance` of `ec2.go`. -/
def RebootInstance {σ Out : Type} (c : Context)
    (api : EC2RebootInstancesAPI σ Out) (input : RebootInstancesInput)
    (w : World σ EC2RebootCall) :
    DryRunResult σ EC2RebootCall RebootInstancesInput Out :=
  let r := w.call (.RebootInstances c input) (api.RebootInstances c input)
  if isDryRunOperation r.err then
    let input := { input with DryRun := false }
    let r2 := r.world.call (.RebootInstances c input) (api.RebootInstances c input)
    { world := r2.world, input := input, resp := r2.resp, err := r2.err }
  else
    { world := r.world, input := input, resp := r.resp, err := r.err }

/-- The function `StartInstance` of `ec2.go`. -/
def StartInstance {σ Out : Type} (c : Context)
    (api : EC2StartInstancesAPI σ Out) (input : StartInstancesInput)
    (w : World σ EC2StartCall) :
    DryRunResult σ EC2StartCall StartInstancesInput Out :=
  let r := w.call (.StartInstances c input) (api.StartInstances c input)
  if isDryRunOperation r.err then
    let input := { input with DryRun := false }
    let r2 := r.world.call (.StartInstances c input) (api.StartInstances c input)
    { world := r2.world, input := input, resp := r2.resp, err := r2.err }
  else
    { world := r.world, input := input, resp := r.resp, err := r.err }

/-- The function `StopInstance` of `ec2.go`. -/
def StopInstance {σ Out : Type} (c : Context)
    (api : EC2StopInstancesAPI σ Out) (input : StopInstancesInput)
    (w : World σ EC2StopCall) :
    DryRunResult σ EC2StopCall StopInstancesInput Out :=
  let r := w.call (.StopInstances c input) (api.StopInstances c input)
  if isDryRunOperation r.err then
    let input := { input with DryRun := false }
    let r2 := r.world.call (.StopInstances c input) (api.StopInstances c input)
    { world := r2.world, input := input, resp := r2.resp, err := r2.err }
  else
    { world := r.world, input := input, resp := r.resp, err := r.err }

/-- The SDK type `ec2.DescribeInstancesInput` (its `Filters` are not used by
this package and are left out). -/
structure DescribeInstancesInput where
  DryRun : Bool := false
  InstanceIds : List String := []
  MaxResults : Int := 0
  NextToken : Option String := none
  deriving DecidableEq, Repr

/-- The SDK type `types.Tag`. -/
structure Tag where
  Key : Option String
  Value : Option String
  deriving DecidableEq, Repr

/-- The SDK type `types.InstanceState`, with the `int32` state code. -/
structure InstanceState where
  Code : Int
  deriving DecidableEq, Repr

/-- The SDK type `types.Instance`, with the fields `ListEC2Instances` reads. -/
structure Instance where
  InstanceId : Option String
  PublicIpAddress : Option String
  PrivateIpAddress : Option String
  State : Option InstanceState
  Tags : List Tag
  deriving DecidableEq, Repr

/-- The SDK type `types.Reservation`, with the field `ListEC2Instances` reads. -/
structure Reservation where
  Instances : List Instance
  deriving DecidableEq, Repr

/-- The SDK type `ec2.DescribeInstancesOutput`, with the field
`ListEC2Instances` reads. -/
structure DescribeInstancesOutput where
  Reservations : List Reservation
  deriving DecidableEq, Repr

/-- The interface `EC2DescribeInstancesAPI`. -/
structure EC2DescribeInstancesAPI (σ : Type) where
  DescribeInstances : Context → DescribeInstancesInput → σ → Reply σ DescribeInstancesOutput

/-- A recorded call of the `EC2DescribeInstancesAPI` method. -/
inductive EC2DescribeCall where
  | DescribeInstances (ctx : Context) (params : DescribeInstancesInput)
  deriving DecidableEq, Repr

/-- The function `GetInstances` of `ec2.go`. -/
def GetInstances {σ : Type} (c : Context) (api : EC2DescribeInstancesAPI σ)
    (input : DescribeInstancesInput) (w : World σ EC2DescribeCall) :
    Called σ EC2DescribeCall DescribeInstancesOutput :=
  w.call (.DescribeInstances c input) (api.DescribeInstances c input)

/-! ## `sqs.go` -/

/-- The SDK type `sqs.GetQueueUrlInput`. -/
structure GetQueueUrlInput where
  QueueName : Option String
  QueueOwnerAWSAccountId : Option String := none
  deriving DecidableEq, Repr

/-- The SDK type `sqs.GetQueueUrlOutput`. -/
structure GetQueueUrlOutput where
  QueueUrl : Option String
  deriving DecidableEq, Repr

/-- The SDK type `sqs.DeleteMessageInput`. -/
structure DeleteMessageInput where
  QueueUrl : Option String
  ReceiptHandle : Option String
  deriving DecidableEq, Repr

/-- The SDK type `sqs.ReceiveMessageInput`; the two wait and count fields are
`int32`. -/
structure ReceiveMessageInput where
  QueueUrl : Option String
  AttributeNames : List String := []
  MaxNumberOfMessages : Int := 0
  MessageAttributeNames : List String := []
  ReceiveRequestAttemptId : Option String := none
  VisibilityTimeout : Int := 0
  WaitTimeSeconds : Int := 0
  deriving DecidableEq, Repr

/-- The SDK type `types.MessageAttributeValue`; the binary and list members,
which this package never sets, are left out. -/
structure MessageAttributeValue where
  DataType : Option String
  StringValue : Option String
  deriving DecidableEq, Repr

/-- The SDK type `sqs.SendMessageInput`.  The Go map `MessageAttributes` is the
list of its entries, in the order of the literal that builds it. -/
structure SendMessageInput where
  MessageBody : Option String
  QueueUrl : Option String
  DelaySeconds : Int := 0
  MessageAttributes : List (String × MessageAttributeValue) := []
  MessageDeduplicationId : Option String := none
  MessageGroupId : Option String := none
  deriving DecidableEq, Repr

/-- The SDK type `sqs.SendMessageOutput`, with the field `SubmitJob` reads. -/
structure SendMessageOutput where
  MessageId : Option String
  deriving DecidableEq, Repr

/-- The interface `SQSAPI`. -/
structure SQSAPI (σ DOut ROut : Type) where
  GetQueueUrl : Context → GetQueueUrlInput → σ → Reply σ GetQueueUrlOutput
  DeleteMessage : Context → DeleteMessageInput → σ → Reply σ DOut
  ReceiveMessage : Context → ReceiveMessageInput → σ → Reply σ ROut
  SendMessage : Context → SendMessageInput → σ → Reply σ SendMessageOutput

/-- A recorded call of an `SQSAPI` method. -/
inductive SQSCall where
  | GetQueueUrl (ctx : Context) (params : GetQueueUrlInput)
  | DeleteMessage (ctx : Context) (params : DeleteMessageInput)
  | ReceiveMessage (ctx : Context) (params : ReceiveMessageInput)
  | SendMessage (ctx : Context) (params : SendMessageInput)
  deriving DecidableEq, Repr

/-- The function `GetQueueURL` of `sqs.go`. -/
def GetQueueURL {σ DOut ROut : Type} (c : Context) (api : SQSAPI σ DOut ROut)
    (input : GetQueueUrlInput) (w : World σ SQSCall) : Called σ SQSCall GetQueueUrlOutput :=
  w.call (.GetQueueUrl c input) (api.GetQueueUrl c input)

/-- The function `RemoveMessage` of `sqs.go`. -/
def RemoveMessage {σ DOut ROut : Type} (c : Context) (api : SQSAPI σ DOut ROut)
    (input : DeleteMessageInput) (w : World σ SQSCall) : Called σ SQSCall DOut :=
  w.call (.DeleteMessage c input) (api.DeleteMessage c input)

/-- The function `GetLPMessages` of `sqs.go`. -/
def GetLPMessages {σ DOut ROut : Type} (c : Context) (api : SQSAPI σ DOut ROut)
    (input : ReceiveMessageInput) (w : World σ SQSCall) : Called σ SQSCall ROut :=
  w.call (.ReceiveMessage c input) (api.ReceiveMessage c input)

/-- The function `SendMsg` of `sqs.go`. -/
def SendMsg {σ DOut ROut : Type} (c : Context) (api : SQSAPI σ DOut ROut)
    (input : SendMessageInput) (w : World σ SQSCall) : Called σ SQSCall SendMessageOutput :=
  w.call (.SendMessage c input) (api.SendMessage c input)

/-! ## `common.go` -/

/-- The struct `InstanceInfo` of `common.go`. -/
structure InstanceInfo where
  Name : String
  Id : String
  PublicIP : String
  PrivateIP : String
  deriving DecidableEq, Repr

/-- What a function of `common.go` leaves behind: the world and how the run
ended. -/
structure Ran (σ κ α : Type) where
  world : World σ κ
  outcome : Outcome α
  deriving DecidableEq, Repr

/-- The constant `time.Millisecond`, in nanoseconds. -/
def Millisecond : Int := 1000000

/-- The expression `fmt.Sprint(time.Now().UnixNano() / int64(time.Millisecond))`
at the clock reading `now` (Unix nanoseconds): Go's `/` on `int64` truncates
toward zero, and `fmt.Sprint` prints the decimal numeral. -/
def jobId (now : Int) : String :=
  toString (Int.tdiv now Millisecond)

/-- The request `sMInput` that `SubmitJob` builds, at the clock reading `now`
and for the queue URL pointer `queueURL` taken from the resolution result. -/
def sMInput (now : Int) (inst : InstanceInfo) (fileKey : String) (s3bucket : String)
    (queueURL : Option String) : SendMessageInput :=
  { DelaySeconds := 10
    MessageAttributes :=
      [ ("JobId", { DataType := some "Number", StringValue := some (jobId now) }),
        ("WorkerId", { DataType := some "String", StringValue := some inst.Id }),
        ("WorkerPubIP", { DataType := some "String", StringValue := some inst.PublicIP }),
        ("WorkerPriIP", { DataType := some "String", StringValue := some inst.PrivateIP }) ]
    MessageBody := some (fileKey ++ " " ++ s3bucket)
    QueueUrl := queueURL }

/-- The function `SubmitJob` of `common.go`.  The clock reading `now` is what
`time.Now().UnixNano()` gives when the send request is built; `client` stands
for the `*sqs.Client`, used through the interface `SQSAPI`.  The last three
matches are the dereferences `*resp.MessageId` and `*queueURL` in the arguments
of the closing `fmt.Printf`. -/
def SubmitJob {σ DOut ROut : Type} (client : SQSAPI σ DOut ROut) (now : Int)
    (queueName : String) (inst : InstanceInfo) (fileKey : String) (s3bucket : String)
    (w : World σ SQSCall) : Ran σ SQSCall Bool :=
  let queue := some queueName
  let gQInput : GetQueueUrlInput := { QueueName := queue }
  let r := GetQueueURL .TODO client gQInput w
  if r.err ≠ none then
    { world := r.world, outcome := .ret false }
  else
    match r.resp with
    | none => { world := r.world, outcome := .nilDeref }
    | some result =>
      let queueURL := result.QueueUrl
      let sMInput := sMInput now inst fileKey s3bucket queueURL
      let r2 := SendMsg .TODO client sMInput r.world
      if r2.err ≠ none then
        { world := r2.world, outcome := .ret false }
      else
        match r2.resp with
        | none => { world := r2.world, outcome := .nilDeref }
        | some resp =>
          match resp.MessageId with
          | none => { world := r2.world, outcome := .nilDeref }
          | some _ =>
            match queueURL with
            | none => { world := r2.world, outcome := .nilDeref }
            | some _ => { world := r2.world, outcome := .ret true }

/-- The inner loop `for _, val := range tags` of `ListEC2Instances`, from the
current value of `name`. -/
def nameLoop : List Tag → String → Outcome String
  | [], name => .ret name
  | val :: rest, name =>
    match val.Key with
    | none => .nilDeref
    | some key =>
      if key = "Name" then
        match val.Value with
        | none => .nilDeref
        | some value => nameLoop rest value
      else nameLoop rest name

/-- The loop `for _, i := range r.Instances` of `ListEC2Instances`, from the
current value of `ret`. -/
def instanceLoop : List Instance → List InstanceInfo → Outcome (List InstanceInfo)
  | [], ret => .ret ret
  | i :: rest, ret =>
    match i.State with
    | none => .nilDeref
    | some state =>
      if state.Code = 16 then
        match nameLoop i.Tags "" with
        | .nilDeref => .nilDeref
        | .ret name =>
          match i.InstanceId, i.PublicIpAddress, i.PrivateIpAddress with
          | some id, some pub, some pri =>
            instanceLoop rest
              (ret ++ [{ Name := name, Id := id, PublicIP := pub, PrivateIP := pri }])
          | _, _, _ => .nilDeref
      else instanceLoop rest ret

/-- The loop `for _, r := range result.Reservations` of `ListEC2Instances`, from
the current value of `ret`. -/
def reservationLoop : List Reservation → List InstanceInfo → Outcome (List InstanceInfo)
  | [], ret => .ret ret
  | r :: rest, ret =>
    match instanceLoop r.Instances ret with
    | .nilDeref => .nilDeref
    | .ret ret => reservationLoop rest ret

/-- The function `ListEC2Instances` of `common.go`; `client` stands for the
`*ec2.Client`, used through the interface `EC2DescribeInstancesAPI`.  The
returned slice is `none` for Go's `nil` and `some l` for a non-nil slice. -/
def ListEC2Instances {σ : Type} (client : EC2DescribeInstancesAPI σ)
    (w : World σ EC2DescribeCall) : Ran σ EC2DescribeCall (Option (List InstanceInfo)) :=
  let input : DescribeInstancesInput := {}
  let r := GetInstances .TODO client input w
  if r.err ≠ none then
    { world := r.world, outcome := .ret none }
  else
    match r.resp with
    | none => { world := r.world, outcome := .nilDeref }
    | some result =>
      match reservationLoop result.Reservations [] with
      | .nilDeref => { world := r.world, outcome := .nilDeref }
      | .ret ret => { world := r.world, outcome := .ret (some ret) }

/-- The Go conversion `int32(n)`: the low 32 bits of `n`, read as a signed
number. -/
def int32 (n : Int) : Int :=
  (n + 2147483648) % 4294967296 - 2147483648

/-- The function `GetLPMessagesByURL` of `common.go`.  The Go `int` parameters
`msgNum` and `waitTime` are integers of the platform's width (64 bits on amd64
and arm64); `client` stands for the `*sqs.Client`, used through the interface
`SQSAPI`. -/
def GetLPMessagesByURL {σ DOut ROut : Type} (client : SQSAPI σ DOut ROut)
    (queueURL : String) (_msgNum : Int) (waitTime : Int) (w : World σ SQSCall) :
    Called σ SQSCall ROut :=
  let mInput : ReceiveMessageInput :=
    { QueueUrl := some queueURL
      AttributeNames := ["SentTimestamp"]
      MaxNumberOfMessages := 1
      MessageAttributeNames := ["All"]
      WaitTimeSeconds := int32 waitTime }
  GetLPMessages .TODO client mInput w

/-! ## Reading a run -/

/-- The code under which an error is classified: the `ErrorCode()` of the API
error that `errors.As` finds in it, if it finds one. -/
def errorCode (err : Option GoError) : Option String :=
  (errorsAs err).map APIError.ErrorCode

/-! ## Sample providers -/

/-- The error the EC2 client gives for a request that would have succeeded but
had its dry-run flag set: the operation error wrapping the API error. -/
def dryRunError : GoError :=
  .wrap "operation error EC2" (.api ⟨"DryRunOperation", "Request would have succeeded, but DryRun flag is set."⟩)

/-- The error of a caller without permission. -/
def unauthorizedError : GoError :=
  .wrap "operation error EC2" (.api ⟨"UnauthorizedOperation", "You are not authorized to perform this operation."⟩)

/-- A provider behaviour, by the dry-run flag of the request and the number of
calls answered so far: a dry run is answered with the DryRunOperation error, a
real run succeeds. -/
def probeReply (dryRun : Bool) (n : Nat) : Reply Nat String :=
  if dryRun then { next := n + 1, resp := none, err := some dryRunError }
  else { next := n + 1, resp := some "done", err := none }

/-- A provider behaviour: every call is answered with the DryRunOperation
error. -/
def stubbornReply (_dryRun : Bool) (n : Nat) : Reply Nat String :=
  { next := n + 1, resp := none, err := some dryRunError }

/-- A provider behaviour: every call is answered with a result object and an
UnauthorizedOperation error, both non-nil. -/
def deniedReply (_dryRun : Bool) (n : Nat) : Reply Nat String :=
  { next := n + 1, resp := some "partial", err := some unauthorizedError }

/-- The monitoring provider with the given behaviour. -/
def monitorAPIOf (f : Bool → Nat → Reply Nat String) : EC2MonitorInstancesAPI Nat String String :=
  { MonitorInstances := fun _ input n => f input.DryRun n
    UnmonitorInstances := fun _ input n => f input.DryRun n }

/-- The reboot provider with the given behaviour. -/
def rebootAPIOf (f : Bool → Nat → Reply Nat String) : EC2RebootInstancesAPI Nat String :=
  { RebootInstances := fun _ input n => f input.DryRun n }

/-- The start provider with the given behaviour. -/
def startAPIOf (f : Bool → Nat → Reply Nat String) : EC2StartInstancesAPI Nat String :=
  { StartInstances := fun _ input n => f input.DryRun n }

/-- The stop provider with the given behaviour. -/
def stopAPIOf (f : Bool → Nat → Reply Nat String) : EC2StopInstancesAPI Nat String :=
  { StopInstances := fun _ input n => f input.DryRun n }

/-- A world in which no call has been made yet. -/
def freshWorld (κ : Type) : World Nat κ :=
  { provider := 0, calls := [] }

/-- A provider behaviour: every call is answered with a nil result and an
UnauthorizedOperation error. -/
def refusedReply (_dryRun : Bool) (n : Nat) : Reply Nat String :=
  { next := n + 1, resp := none, err := some unauthorizedError }

/-- The error the SQS client gives for a queue that does not exist. -/
def nonExistentQueue : GoError :=
  .wrap "operation error SQS: GetQueueUrl"
    (.api ⟨"AWS.SimpleQueueService.NonExistentQueue", "The specified queue does not exist."⟩)

/-- A resolution behaviour: the queue named "jobs" has a URL, no other queue
exists. -/
def resolveJobs (input : GetQueueUrlInput) (n : Nat) : Reply Nat GetQueueUrlOutput :=
  if input.QueueName = some "jobs" then
    { next := n + 1, resp := some { QueueUrl := some "https://queue.example/jobs" }, err := none }
  else { next := n + 1, resp := none, err := some nonExistentQueue }

/-- A send behaviour: the message is accepted and given an id. -/
def sendAccepted (_input : SendMessageInput) (n : Nat) : Reply Nat SendMessageOutput :=
  { next := n + 1, resp := some { MessageId := some "msg-0001" }, err := none }

/-- A send behaviour: the call fails. -/
def sendFailed (_input : SendMessageInput) (n : Nat) : Reply Nat SendMessageOutput :=
  { next := n + 1, resp := none, err := some (.plain "connection reset by peer") }

/-- A send behaviour: the call succeeds with a response that carries no message
id. -/
def sendWithoutId (_input : SendMessageInput) (n : Nat) : Reply Nat SendMessageOutput :=
  { next := n + 1, resp := some { MessageId := none }, err := none }

/-- The queue provider with the given resolution and send behaviours. -/
def sqsAPIOf (resolve : GetQueueUrlInput → Nat → Reply Nat GetQueueUrlOutput)
    (send : SendMessageInput → Nat → Reply Nat SendMessageOutput) : SQSAPI Nat Unit Unit :=
  { GetQueueUrl := fun _ input n => resolve input n
    DeleteMessage := fun _ _ n => { next := n + 1, resp := some (), err := none }
    ReceiveMessage := fun _ _ n => { next := n + 1, resp := some (), err := none }
    SendMessage := fun _ input n => send input n }

/-- The worker of `Test_submitJob`. -/
def workerTest : InstanceInfo :=
  { Name := "workerTest", Id := "testId0", PublicIP := "1.2.3.4", PrivateIP := "192.168.0.1" }

/-! ## The listing, in the words of the specification -/

/-- An instance is running when it carries a state whose code is 16. -/
def isRunning (i : Instance) : Bool :=
  match i.State with
  | none => false
  | some state => state.Code == 16

/-- The instances of a describe response in provider order: reservations in
order, instances within each reservation in order. -/
def allInstances (result : DescribeInstancesOutput) : List Instance :=
  (result.Reservations.map Reservation.Instances).flatten

/-- The last tag whose key is "Name", if there is one. -/
def lastNameTag (tags : List Tag) : Option Tag :=
  tags.reverse.find? (fun t => t.Key == some "Name")

/-- The name the specification gives to an instance with these tags: the value
of the last tag whose key is "Name", or the empty string if there is no such
tag.  It is `none` when that tag carries no value. -/
def specName (tags : List Tag) : Option String :=
  match lastNameTag tags with
  | none => some ""
  | some t => t.Value

/-- The entry `e` is the summary of the instance `i`: its id, public IP and
private IP are the instance's values, and its name is the specification's
name. -/
def Describes (i : Instance) (e : InstanceInfo) : Prop :=
  i.InstanceId = some e.Id ∧ i.PublicIpAddress = some e.PublicIP ∧
    i.PrivateIpAddress = some e.PrivateIP ∧ specName i.Tags = some e.Name

instance (i : Instance) (e : InstanceInfo) : Decidable (Describes i e) := by
  unfold Describes
  infer_instance

/-- Every tag has its key, and every tag whose key is "Name" has its value: the
pointers the tag loop dereferences. -/
def tagsPresent (tags : List Tag) : Bool :=
  tags.all (fun t => t.Key.isSome && (t.Key != some "Name" || t.Value.isSome))

/-- The instance carries its state and, if it is running, its id, public IP,
private IP and the tag fields the loop dereferences. -/
def instancePresent (i : Instance) : Bool :=
  i.State.isSome &&
    (!isRunning i ||
      (tagsPresent i.Tags && i.InstanceId.isSome && i.PublicIpAddress.isSome &&
        i.PrivateIpAddress.isSome))

/-- A describe response is well-formed when every instance in it carries the
fields that `ListEC2Instances` dereferences on it. -/
def wellFormed (result : DescribeInstancesOutput) : Bool :=
  (allInstances result).all instancePresent

/-! ## Sample describe responses -/

/-- The describe provider that answers every call with the given result and
error. -/
def describeAPIOf (resp : Option DescribeInstancesOutput) (err : Option GoError) :
    EC2DescribeInstancesAPI Nat :=
  { DescribeInstances := fun _ _ n => { next := n + 1, resp := resp, err := err } }

/-- A running instance with two "Name" tags. -/
def webInstance : Instance :=
  { InstanceId := some "i-0a1", PublicIpAddress := some "3.4.5.6"
    PrivateIpAddress := some "10.0.0.5", State := some { Code := 16 }
    Tags := [⟨some "Name", some "old"⟩, ⟨some "env", some "prod"⟩, ⟨some "Name", some "web"⟩] }

/-- A stopped instance (state code 80), which has no public IP. -/
def stoppedInstance : Instance :=
  { InstanceId := some "i-0b2", PublicIpAddress := none
    PrivateIpAddress := some "10.0.0.6", State := some { Code := 80 }
    Tags := [⟨some "Name", some "batch"⟩] }

/-- A running instance without a "Name" tag. -/
def unnamedInstance : Instance :=
  { InstanceId := some "i-0c3", PublicIpAddress := some "3.4.5.7"
    PrivateIpAddress := some "10.0.0.7", State := some { Code := 16 }
    Tags := [⟨some "env", some "prod"⟩] }

/-- A running instance in a private subnet: it has no public IP. -/
def privateInstance : Instance :=
  { InstanceId := some "i-0d4", PublicIpAddress := none
    PrivateIpAddress := some "10.0.1.9", State := some { Code := 16 }
    Tags := [⟨some "Name", some "db"⟩] }

/-- Two reservations, with two running instances and a stopped one. -/
def fleet : DescribeInstancesOutput :=
  { Reservations := [⟨[webInstance, stoppedInstance]⟩, ⟨[unnamedInstance]⟩] }

/-- A reservation whose second running instance has no public IP. -/
def fleetWithPrivate : DescribeInstancesOutput :=
  { Reservations := [⟨[webInstance, privateInstance]⟩] }

/-- A reservation with no running instance. -/
def idleFleet : DescribeInstancesOutput :=
  { Reservations := [⟨[stoppedInstance]⟩] }

/-- An instance record that carries no state. -/
def statelessInstance : Instance :=
  { InstanceId := some "i-0e5", PublicIpAddress := none, PrivateIpAddress := none
    State := none, Tags := [] }

/-- A reservation whose only instance carries no state. -/
def statelessFleet : DescribeInstancesOutput :=
  { Reservations := [⟨[statelessInstance]⟩] }

/-! ## Changing the IP addresses of instances that are not running -/

/-- The instance `i` with its public and private IP pointers replaced by
`pub i` and `pri i` when it is not running, and left as it is when it is. -/
def withIdleIPs (pub pri : Instance → Option String) (i : Instance) : Instance :=
  if isRunning i then i
  else { i with PublicIpAddress := pub i, PrivateIpAddress := pri i }

/-- The describe response with the IP pointers of every instance that is not
running replaced. -/
def replaceIdleIPs (pub pri : Instance → Option String) (result : DescribeInstancesOutput) :
    DescribeInstancesOutput :=
  { Reservations :=
      result.Reservations.map (fun r => { Instances := r.Instances.map (withIdleIPs pub pri) }) }

/-- A reservation whose stopped instance still reports both an old public IP
and its private IP. -/
def fleetWithStoppedIPs : DescribeInstancesOutput :=
  { Reservations :=
      [⟨[webInstance, { stoppedInstance with PublicIpAddress := some "3.4.5.9" }]⟩,
        ⟨[unnamedInstance]⟩] }

/-! # Theorems -/

/-- The retry condition of the five functions holds exactly for the errors
classified with code "DryRunOperation". -/
theorem isDryRunOperation_iff (err : Option GoError) :
    isDryRunOperation err = true ↔ errorCode err = some "DryRunOperation" := by
  unfold isDryRunOperation errorCode
  cases errorsAs err <;> simp

/-- An error that is not classified "DryRunOperation" does not meet the retry
condition. -/
theorem isDryRunOperation_eq_false (err : Option GoError)
    (h : errorCode err ≠ some "DryRunOperation") : isDryRunOperation err = false := by
  cases hb : isDryRunOperation err
  · rfl
  · exact absurd ((isDryRunOperation_iff err).1 hb) h

/-- A nil error has no classification. -/
theorem errorCode_none : errorCode none = none := rfl

/-! ## The dry-run retry policy -/

/-- C1. For each of EnableMonitoring, DisableMonitoring, RebootInstance,
StartInstance and StopInstance, for every provider, context, request and world:
if the error of the provider's first response is classified with code
"DryRunOperation", the function makes exactly one further provider call, with
the same context, on the same request with DryRun set to false and every other
field as the caller gave it, and returns exactly that second call's result and
error; the request object is left with DryRun = false. -/
theorem dryRunOperation_retries_once {σ MOut UOut Out : Type} :
    (∀ (c : Context) (api : EC2MonitorInstancesAPI σ MOut UOut)
        (input : MonitorInstancesInput) (w : World σ EC2MonitorCall),
        errorCode (api.MonitorInstances c input w.provider).err = some "DryRunOperation" →
        EnableMonitoring c api input w =
          { world :=
              { provider := (api.MonitorInstances c { input with DryRun := false }
                  (api.MonitorInstances c input w.provider).next).next
                calls := w.calls ++ [.MonitorInstances c input,
                  .MonitorInstances c { input with DryRun := false }] }
            input := { input with DryRun := false }
            resp := (api.MonitorInstances c { input with DryRun := false }
              (api.MonitorInstances c input w.provider).next).resp
            err := (api.MonitorInstances c { input with DryRun := false }
              (api.MonitorInstances c input w.provider).next).err }) ∧
    (∀ (c : Context) (api : EC2MonitorInstancesAPI σ MOut UOut)
        (input : UnmonitorInstancesInput) (w : World σ EC2MonitorCall),
        errorCode (api.UnmonitorInstances c input w.provider).err = some "DryRunOperation" →
        DisableMonitoring c api input w =
          { world :=
              { provider := (api.UnmonitorInstances c { input with DryRun := false }
                  (api.UnmonitorInstances c input w.provider).next).next
                calls := w.calls ++ [.UnmonitorInstances c input,
                  .UnmonitorInstances c { input with DryRun := false }] }
            input := { input with DryRun := false }
            resp := (api.UnmonitorInstances c { input with DryRun := false }
              (api.UnmonitorInstances c input w.provider).next).resp
            err := (api.UnmonitorInstances c { input with DryRun := false }
              (api.UnmonitorInstances c input w.provider).next).err }) ∧
    (∀ (c : Context) (api : EC2RebootInstancesAPI σ Out)
        (input : RebootInstancesInput) (w : World σ EC2RebootCall),
        errorCode (api.RebootInstances c input w.provider).err = some "DryRunOperation" →
        RebootInstance c api input w =
          { world :=
              { provider := (api.RebootInstances c { input with DryRun := false }
                  (api.RebootInstances c input w.provider).next).next
                calls := w.calls ++ [.RebootInstances c input,
                  .RebootInstances c { input with DryRun := false }] }
            input := { input with DryRun := false }
            resp := (api.RebootInstances c { input with DryRun := false }
              (api.RebootInstances c input w.provider).next).resp
            err := (api.RebootInstances c { input with DryRun := false }
              (api.RebootInstances c input w.provider).next).err }) ∧
    (∀ (c : Context) (api : EC2StartInstancesAPI σ Out)
        (input : StartInstancesInput) (w : World σ EC2StartCall),
        errorCode (api.StartInstances c input w.provider).err = some "DryRunOperation" →
        StartInstance c api input w =
          { world :=
              { provider := (api.StartInstances c { input with DryRun := false }
                  (api.StartInstances c input w.provider).next).next
                calls := w.calls ++ [.StartInstances c input,
                  .StartInstances c { input with DryRun := false }] }
            input := { input with DryRun := false }
            resp := (api.StartInstances c { input with DryRun := false }
              (api.StartInstances c input w.provider).next).resp
            err := (api.StartInstances c { input with DryRun := false }
              (api.StartInstances c input w.provider).next).err }) ∧
    (∀ (c : Context) (api : EC2StopInstancesAPI σ Out)
        (input : StopInstancesInput) (w : World σ EC2StopCall),
        errorCode (api.StopInstances c input w.provider).err = some "DryRunOperation" →
        StopInstance c api input w =
          { world :=
              { provider := (api.StopInstances c { input with DryRun := false }
                  (api.StopInstances c input w.provider).next).next
                calls := w.calls ++ [.StopInstances c input,
                  .StopInstances c { input with DryRun := false }] }
            input := { input with DryRun := false }
            resp := (api.StopInstances c { input with DryRun := false }
              (api.StopInstances c input w.provider).next).resp
            err := (api.StopInstances c { input with DryRun := false }
              (api.StopInstances c input w.provider).next).err }) := by
  refine ⟨?_, ?_, ?_, ?_, ?_⟩ <;> intro c api input w h
  · simp [EnableMonitoring, World.call, (isDryRunOperation_iff _).2 h]
  · simp [DisableMonitoring, World.call, (isDryRunOperation_iff _).2 h]
  · simp [RebootInstance, World.call, (isDryRunOperation_iff _).2 h]
  · simp [StartInstance, World.call, (isDryRunOperation_iff _).2 h]
  · simp [StopInstance, World.call, (isDryRunOperation_iff _).2 h]

/-- Witness of C1: against a provider that answers a dry run with the
DryRunOperation error and a real run with success, each of the five functions,
called with DryRun = true, makes the dry-run call and the real call and returns
the success of the real call. -/
theorem dryRunOperation_retries_once_witness :
    (errorCode ((monitorAPIOf probeReply).MonitorInstances .TODO ⟨["i-0a1"], true⟩ 0).err = some "DryRunOperation" ∧
      EnableMonitoring .TODO (monitorAPIOf probeReply) ⟨["i-0a1"], true⟩ (freshWorld EC2MonitorCall) =
        { world := { provider := 2, calls := [.MonitorInstances .TODO ⟨["i-0a1"], true⟩, .MonitorInstances .TODO ⟨["i-0a1"], false⟩] }
          input := ⟨["i-0a1"], false⟩
          resp := some "done"
          err := none }) ∧
    (errorCode ((monitorAPIOf probeReply).UnmonitorInstances .TODO ⟨["i-0a1"], true⟩ 0).err = some "DryRunOperation" ∧
      DisableMonitoring .TODO (monitorAPIOf probeReply) ⟨["i-0a1"], true⟩ (freshWorld EC2MonitorCall) =
        { world := { provider := 2, calls := [.UnmonitorInstances .TODO ⟨["i-0a1"], true⟩, .UnmonitorInstances .TODO ⟨["i-0a1"], false⟩] }
          input := ⟨["i-0a1"], false⟩
          resp := some "done"
          err := none }) ∧
    (errorCode ((rebootAPIOf probeReply).RebootInstances .TODO ⟨["i-0a1", "i-0b2"], true⟩ 0).err = some "DryRunOperation" ∧
      RebootInstance .TODO (rebootAPIOf probeReply) ⟨["i-0a1", "i-0b2"], true⟩ (freshWorld EC2RebootCall) =
        { world := { provider := 2, calls := [.RebootInstances .TODO ⟨["i-0a1", "i-0b2"], true⟩, .RebootInstances .TODO ⟨["i-0a1", "i-0b2"], false⟩] }
          input := ⟨["i-0a1", "i-0b2"], false⟩
          resp := some "done"
          err := none }) ∧
    (errorCode ((startAPIOf probeReply).StartInstances .TODO ⟨["i-0a1"], some "info", true⟩ 0).err = some "DryRunOperation" ∧
      StartInstance .TODO (startAPIOf probeReply) ⟨["i-0a1"], some "info", true⟩ (freshWorld EC2StartCall) =
        { world := { provider := 2, calls := [.StartInstances .TODO ⟨["i-0a1"], some "info", true⟩, .StartInstances .TODO ⟨["i-0a1"], some "info", false⟩] }
          input := ⟨["i-0a1"], some "info", false⟩
          resp := some "done"
          err := none }) ∧
    (errorCode ((stopAPIOf probeReply).StopInstances .TODO ⟨["i-0a1"], true, true, false⟩ 0).err = some "DryRunOperation" ∧
      StopInstance .TODO (stopAPIOf probeReply) ⟨["i-0a1"], true, true, false⟩ (freshWorld EC2StopCall) =
        { world := { provider := 2, calls := [.StopInstances .TODO ⟨["i-0a1"], true, true, false⟩, .StopInstances .TODO ⟨["i-0a1"], false, true, false⟩] }
          input := ⟨["i-0a1"], false, true, false⟩
          resp := some "done"
          err := none }) :=
  ⟨⟨by decide, (@dryRunOperation_retries_once Nat String String String).1 .TODO (monitorAPIOf probeReply)
      ⟨["i-0a1"], true⟩ (freshWorld EC2MonitorCall) (by decide)⟩,
    ⟨by decide, (@dryRunOperation_retries_once Nat String String String).2.1 .TODO (monitorAPIOf probeReply)
      ⟨["i-0a1"], true⟩ (freshWorld EC2MonitorCall) (by decide)⟩,
    ⟨by decide, (@dryRunOperation_retries_once Nat String String String).2.2.1 .TODO (rebootAPIOf probeReply)
      ⟨["i-0a1", "i-0b2"], true⟩ (freshWorld EC2RebootCall) (by decide)⟩,
    ⟨by decide, (@dryRunOperation_retries_once Nat String String String).2.2.2.1 .TODO (startAPIOf probeReply)
      ⟨["i-0a1"], some "info", true⟩ (freshWorld EC2StartCall) (by decide)⟩,
    ⟨by decide, (@dryRunOperation_retries_once Nat String String String).2.2.2.2 .TODO (stopAPIOf probeReply)
      ⟨["i-0a1"], true, true, false⟩ (freshWorld EC2StopCall) (by decide)⟩⟩

/-- C2. For each of EnableMonitoring, DisableMonitoring, RebootInstance,
StartInstance and StopInstance, for every provider, context, request and world:
if the provider's first response is a success (nil error) or an error that is
not classified "DryRunOperation", the function makes exactly one provider call
in total, leaves the request (its DryRun flag included) unchanged, and returns
that call's result and error unchanged. -/
theorem other_response_single_call {σ MOut UOut Out : Type} :
    (∀ (c : Context) (api : EC2MonitorInstancesAPI σ MOut UOut)
        (input : MonitorInstancesInput) (w : World σ EC2MonitorCall),
        errorCode (api.MonitorInstances c input w.provider).err ≠ some "DryRunOperation" →
        EnableMonitoring c api input w =
          { world :=
              { provider := (api.MonitorInstances c input w.provider).next
                calls := w.calls ++ [.MonitorInstances c input] }
            input := input
            resp := (api.MonitorInstances c input w.provider).resp
            err := (api.MonitorInstances c input w.provider).err }) ∧
    (∀ (c : Context) (api : EC2MonitorInstancesAPI σ MOut UOut)
        (input : UnmonitorInstancesInput) (w : World σ EC2MonitorCall),
        errorCode (api.UnmonitorInstances c input w.provider).err ≠ some "DryRunOperation" →
        DisableMonitoring c api input w =
          { world :=
              { provider := (api.UnmonitorInstances c input w.provider).next
                calls := w.calls ++ [.UnmonitorInstances c input] }
            input := input
            resp := (api.UnmonitorInstances c input w.provider).resp
            err := (api.UnmonitorInstances c input w.provider).err }) ∧
    (∀ (c : Context) (api : EC2RebootInstancesAPI σ Out)
        (input : RebootInstancesInput) (w : World σ EC2RebootCall),
        errorCode (api.RebootInstances c input w.provider).err ≠ some "DryRunOperation" →
        RebootInstance c api input w =
          { world :=
              { provider := (api.RebootInstances c input w.provider).next
                calls := w.calls ++ [.RebootInstances c input] }
            input := input
            resp := (api.RebootInstances c input w.provider).resp
            err := (api.RebootInstances c input w.provider).err }) ∧
    (∀ (c : Context) (api : EC2StartInstancesAPI σ Out)
        (input : StartInstancesInput) (w : World σ EC2StartCall),
        errorCode (api.StartInstances c input w.provider).err ≠ some "DryRunOperation" →
        StartInstance c api input w =
          { world :=
              { provider := (api.StartInstances c input w.provider).next
                calls := w.calls ++ [.StartInstances c input] }
            input := input
            resp := (api.StartInstances c input w.provider).resp
            err := (api.StartInstances c input w.provider).err }) ∧
    (∀ (c : Context) (api : EC2StopInstancesAPI σ Out)
        (input : StopInstancesInput) (w : World σ EC2StopCall),
        errorCode (api.StopInstances c input w.provider).err ≠ some "DryRunOperation" →
        StopInstance c api input w =
          { world :=
              { provider := (api.StopInstances c input w.provider).next
                calls := w.calls ++ [.StopInstances c input] }
            input := input
            resp := (api.StopInstances c input w.provider).resp
            err := (api.StopInstances c input w.provider).err }) := by
  refine ⟨?_, ?_, ?_, ?_, ?_⟩ <;> intro c api input w h
  · simp [EnableMonitoring, World.call, isDryRunOperation_eq_false _ h]
  · simp [DisableMonitoring, World.call, isDryRunOperation_eq_false _ h]
  · simp [RebootInstance, World.call, isDryRunOperation_eq_false _ h]
  · simp [StartInstance, World.call, isDryRunOperation_eq_false _ h]
  · simp [StopInstance, World.call, isDryRunOperation_eq_false _ h]

/-- Witness of C2: a real run that succeeds (the first three functions) and a
dry run refused with UnauthorizedOperation (the last two) are each one call,
returned as the provider answered it. -/
theorem other_response_single_call_witness :
    (errorCode ((monitorAPIOf probeReply).MonitorInstances .TODO ⟨["i-0a1"], false⟩ 0).err ≠ some "DryRunOperation" ∧
      EnableMonitoring .TODO (monitorAPIOf probeReply) ⟨["i-0a1"], false⟩ (freshWorld EC2MonitorCall) =
        { world := { provider := 1, calls := [.MonitorInstances .TODO ⟨["i-0a1"], false⟩] }
          input := ⟨["i-0a1"], false⟩
          resp := some "done"
          err := none }) ∧
    (errorCode ((monitorAPIOf probeReply).UnmonitorInstances .TODO ⟨["i-0a1"], false⟩ 0).err ≠ some "DryRunOperation" ∧
      DisableMonitoring .TODO (monitorAPIOf probeReply) ⟨["i-0a1"], false⟩ (freshWorld EC2MonitorCall) =
        { world := { provider := 1, calls := [.UnmonitorInstances .TODO ⟨["i-0a1"], false⟩] }
          input := ⟨["i-0a1"], false⟩
          resp := some "done"
          err := none }) ∧
    (errorCode ((rebootAPIOf probeReply).RebootInstances .TODO ⟨["i-0a1", "i-0b2"], false⟩ 0).err ≠ some "DryRunOperation" ∧
      RebootInstance .TODO (rebootAPIOf probeReply) ⟨["i-0a1", "i-0b2"], false⟩ (freshWorld EC2RebootCall) =
        { world := { provider := 1, calls := [.RebootInstances .TODO ⟨["i-0a1", "i-0b2"], false⟩] }
          input := ⟨["i-0a1", "i-0b2"], false⟩
          resp := some "done"
          err := none }) ∧
    (errorCode ((startAPIOf deniedReply).StartInstances .TODO ⟨["i-0a1"], some "info", true⟩ 0).err ≠ some "DryRunOperation" ∧
      StartInstance .TODO (startAPIOf deniedReply) ⟨["i-0a1"], some "info", true⟩ (freshWorld EC2StartCall) =
        { world := { provider := 1, calls := [.StartInstances .TODO ⟨["i-0a1"], some "info", true⟩] }
          input := ⟨["i-0a1"], some "info", true⟩
          resp := some "partial"
          err := some unauthorizedError }) ∧
    (errorCode ((stopAPIOf deniedReply).StopInstances .TODO ⟨["i-0a1"], true, true, false⟩ 0).err ≠ some "DryRunOperation" ∧
      StopInstance .TODO (stopAPIOf deniedReply) ⟨["i-0a1"], true, true, false⟩ (freshWorld EC2StopCall) =
        { world := { provider := 1, calls := [.StopInstances .TODO ⟨["i-0a1"], true, true, false⟩] }
          input := ⟨["i-0a1"], true, true, false⟩
          resp := some "partial"
          err := some unauthorizedError }) :=
  ⟨⟨by decide, (@other_response_single_call Nat String String String).1 .TODO (monitorAPIOf probeReply)
      ⟨["i-0a1"], false⟩ (freshWorld EC2MonitorCall) (by decide)⟩,
    ⟨by decide, (@other_response_single_call Nat String String String).2.1 .TODO (monitorAPIOf probeReply)
      ⟨["i-0a1"], false⟩ (freshWorld EC2MonitorCall) (by decide)⟩,
    ⟨by decide, (@other_response_single_call Nat String String String).2.2.1 .TODO (rebootAPIOf probeReply)
      ⟨["i-0a1", "i-0b2"], false⟩ (freshWorld EC2RebootCall) (by decide)⟩,
    ⟨by decide, (@other_response_single_call Nat String String String).2.2.2.1 .TODO (startAPIOf deniedReply)
      ⟨["i-0a1"], some "info", true⟩ (freshWorld EC2StartCall) (by decide)⟩,
    ⟨by decide, (@other_response_single_call Nat String String String).2.2.2.2 .TODO (stopAPIOf deniedReply)
      ⟨["i-0a1"], true, true, false⟩ (freshWorld EC2StopCall) (by decide)⟩⟩

/-- C8. Against a provider that answers every call with an error classified
"DryRunOperation", invoking any of the five dry-run retry functions twice in a
row on the same request object, which initially has DryRun = true, makes exactly
2 provider calls in the first invocation and exactly 2 in the second, 4 in
total. The first invocation calls the provider on the request as given and then
on the request with DryRun = false, and leaves the request with DryRun = false;
the second, run on that request and on the world the first left, calls the
provider twice again on the request with DryRun = false. The provider state is
the one reached through these four calls in this order, and each invocation
returns the reply of its own second call. -/
theorem always_dryRun_two_calls_each {σ MOut UOut Out : Type} :
    (∀ (c₁ c₂ : Context) (api : EC2MonitorInstancesAPI σ MOut UOut)
        (input : MonitorInstancesInput) (w : World σ EC2MonitorCall),
        (∀ (c : Context) (i : MonitorInstancesInput) (s : σ),
          errorCode (api.MonitorInstances c i s).err = some "DryRunOperation") →
        input.DryRun = true →
        EnableMonitoring c₁ api input w =
            { world :=
                { provider := (api.MonitorInstances c₁ { input with DryRun := false }
              (api.MonitorInstances c₁ input w.provider).next).next
                  calls := w.calls ++ [.MonitorInstances c₁ input, .MonitorInstances c₁ { input with DryRun := false }] }
              input := { input with DryRun := false }
              resp := (api.MonitorInstances c₁ { input with DryRun := false }
              (api.MonitorInstances c₁ input w.provider).next).resp
              err := (api.MonitorInstances c₁ { input with DryRun := false }
              (api.MonitorInstances c₁ input w.provider).next).err } ∧
          EnableMonitoring c₂ api (EnableMonitoring c₁ api input w).input (EnableMonitoring c₁ api input w).world =
            { world :=
                { provider := (api.MonitorInstances c₂ { input with DryRun := false }
              (api.MonitorInstances c₂ { input with DryRun := false }
              (api.MonitorInstances c₁ { input with DryRun := false }
              (api.MonitorInstances c₁ input w.provider).next).next).next).next
                  calls := w.calls ++ [.MonitorInstances c₁ input, .MonitorInstances c₁ { input with DryRun := false },
                    .MonitorInstances c₂ { input with DryRun := false }, .MonitorInstances c₂ { input with DryRun := false }] }
              input := { input with DryRun := false }
              resp := (api.MonitorInstances c₂ { input with DryRun := false }
              (api.MonitorInstances c₂ { input with DryRun := false }
              (api.MonitorInstances c₁ { input with DryRun := false }
              (api.MonitorInstances c₁ input w.provider).next).next).next).resp
              err := (api.MonitorInstances c₂ { input with DryRun := false }
              (api.MonitorInstances c₂ { input with DryRun := false }
              (api.MonitorInstances c₁ { input with DryRun := false }
              (api.MonitorInstances c₁ input w.provider).next).next).next).err } ∧
          (EnableMonitoring c₁ api input w).world.calls.length = w.calls.length + 2 ∧
          (EnableMonitoring c₂ api (EnableMonitoring c₁ api input w).input
              (EnableMonitoring c₁ api input w).world).world.calls.length =
            (EnableMonitoring c₁ api input w).world.calls.length + 2 ∧
          (EnableMonitoring c₂ api (EnableMonitoring c₁ api input w).input
              (EnableMonitoring c₁ api input w).world).world.calls.length =
            w.calls.length + 4) ∧
    (∀ (c₁ c₂ : Context) (api : EC2MonitorInstancesAPI σ MOut UOut)
        (input : UnmonitorInstancesInput) (w : World σ EC2MonitorCall),
        (∀ (c : Context) (i : UnmonitorInstancesInput) (s : σ),
          errorCode (api.UnmonitorInstances c i s).err = some "DryRunOperation") →
        input.DryRun = true →
        DisableMonitoring c₁ api input w =
            { world :=
                { provider := (api.UnmonitorInstances c₁ { input with DryRun := false }
              (api.UnmonitorInstances c₁ input w.provider).next).next
                  calls := w.calls ++ [.UnmonitorInstances c₁ input, .UnmonitorInstances c₁ { input with DryRun := false }] }
              input := { input with DryRun := false }
              resp := (api.UnmonitorInstances c₁ { input with DryRun := false }
              (api.UnmonitorInstances c₁ input w.provider).next).resp
              err := (api.UnmonitorInstances c₁ { input with DryRun := false }
              (api.UnmonitorInstances c₁ input w.provider).next).err } ∧
          DisableMonitoring c₂ api (DisableMonitoring c₁ api input w).input (DisableMonitoring c₁ api input w).world =
            { world :=
                { provider := (api.UnmonitorInstances c₂ { input with DryRun := false }
              (api.UnmonitorInstances c₂ { input with DryRun := false }
              (api.UnmonitorInstances c₁ { input with DryRun := false }
              (api.UnmonitorInstances c₁ input w.provider).next).next).next).next
                  calls := w.calls ++ [.UnmonitorInstances c₁ input, .UnmonitorInstances c₁ { input with DryRun := false },
                    .UnmonitorInstances c₂ { input with DryRun := false }, .UnmonitorInstances c₂ { input with DryRun := false }] }
              input := { input with DryRun := false }
              resp := (api.UnmonitorInstances c₂ { input with DryRun := false }
              (api.UnmonitorInstances c₂ { input with DryRun := false }
              (api.UnmonitorInstances c₁ { input with DryRun := false }
              (api.UnmonitorInstances c₁ input w.provider).next).next).next).resp
              err := (api.UnmonitorInstances c₂ { input with DryRun := false }
              (api.UnmonitorInstances c₂ { input with DryRun := false }
              (api.UnmonitorInstances c₁ { input with DryRun := false }
              (api.UnmonitorInstances c₁ input w.provider).next).next).next).err } ∧
          (DisableMonitoring c₁ api input w).world.calls.length = w.calls.length + 2 ∧
          (DisableMonitoring c₂ api (DisableMonitoring c₁ api input w).input
              (DisableMonitoring c₁ api input w).world).world.calls.length =
            (DisableMonitoring c₁ api input w).world.calls.length + 2 ∧
          (DisableMonitoring c₂ api (DisableMonitoring c₁ api input w).input
              (DisableMonitoring c₁ api input w).world).world.calls.length =
            w.calls.length + 4) ∧
    (∀ (c₁ c₂ : Context) (api : EC2RebootInstancesAPI σ Out)
        (input : RebootInstancesInput) (w : World σ EC2RebootCall),
        (∀ (c : Context) (i : RebootInstancesInput) (s : σ),
          errorCode (api.RebootInstances c i s).err = some "DryRunOperation") →
        input.DryRun = true →
        RebootInstance c₁ api input w =
            { world :=
                { provider := (api.RebootInstances c₁ { input with DryRun := false }
              (api.RebootInstances c₁ input w.provider).next).next
                  calls := w.calls ++ [.RebootInstances c₁ input, .RebootInstances c₁ { input with DryRun := false }] }
              input := { input with DryRun := false }
              resp := (api.RebootInstances c₁ { input with DryRun := false }
              (api.RebootInstances c₁ input w.provider).next).resp
              err := (api.RebootInstances c₁ { input with DryRun := false }
              (api.RebootInstances c₁ input w.provider).next).err } ∧
          RebootInstance c₂ api (RebootInstance c₁ api input w).input (RebootInstance c₁ api input w).world =
            { world :=
                { provider := (api.RebootInstances c₂ { input with DryRun := false }
              (api.RebootInstances c₂ { input with DryRun := false }
              (api.RebootInstances c₁ { input with DryRun := false }
              (api.RebootInstances c₁ input w.provider).next).next).next).next
                  calls := w.calls ++ [.RebootInstances c₁ input, .RebootInstances c₁ { input with DryRun := false },
                    .RebootInstances c₂ { input with DryRun := false }, .RebootInstances c₂ { input with DryRun := false }] }
              input := { input with DryRun := false }
              resp := (api.RebootInstances c₂ { input with DryRun := false }
              (api.RebootInstances c₂ { input with DryRun := false }
              (api.RebootInstances c₁ { input with DryRun := false }
              (api.RebootInstances c₁ input w.provider).next).next).next).resp
              err := (api.RebootInstances c₂ { input with DryRun := false }
              (api.RebootInstances c₂ { input with DryRun := false }
              (api.RebootInstances c₁ { input with DryRun := false }
              (api.RebootInstances c₁ input w.provider).next).next).next).err } ∧
          (RebootInstance c₁ api input w).world.calls.length = w.calls.length + 2 ∧
          (RebootInstance c₂ api (RebootInstance c₁ api input w).input
              (RebootInstance c₁ api input w).world).world.calls.length =
            (RebootInstance c₁ api input w).world.calls.length + 2 ∧
          (RebootInstance c₂ api (RebootInstance c₁ api input w).input
              (RebootInstance c₁ api input w).world).world.calls.length =
            w.calls.length + 4) ∧
    (∀ (c₁ c₂ : Context) (api : EC2StartInstancesAPI σ Out)
        (input : StartInstancesInput) (w : World σ EC2StartCall),
        (∀ (c : Context) (i : StartInstancesInput) (s : σ),
          errorCode (api.StartInstances c i s).err = some "DryRunOperation") →
        input.DryRun = true →
        StartInstance c₁ api input w =
            { world :=
                { provider := (api.StartInstances c₁ { input with DryRun := false }
              (api.StartInstances c₁ input w.provider).next).next
                  calls := w.calls ++ [.StartInstances c₁ input, .StartInstances c₁ { input with DryRun := false }] }
              input := { input with DryRun := false }
              resp := (api.StartInstances c₁ { input with DryRun := false }
              (api.StartInstances c₁ input w.provider).next).resp
              err := (api.StartInstances c₁ { input with DryRun := false }
              (api.StartInstances c₁ input w.provider).next).err } ∧
          StartInstance c₂ api (StartInstance c₁ api input w).input (StartInstance c₁ api input w).world =
            { world :=
                { provider := (api.StartInstances c₂ { input with DryRun := false }
              (api.StartInstances c₂ { input with DryRun := false }
              (api.StartInstances c₁ { input with DryRun := false }
              (api.StartInstances c₁ input w.provider).next).next).next).next
                  calls := w.calls ++ [.StartInstances c₁ input, .StartInstances c₁ { input with DryRun := false },
                    .StartInstances c₂ { input with DryRun := false }, .StartInstances c₂ { input with DryRun := false }] }
              input := { input with DryRun := false }
              resp := (api.StartInstances c₂ { input with DryRun := false }
              (api.StartInstances c₂ { input with DryRun := false }
              (api.StartInstances c₁ { input with DryRun := false }
              (api.StartInstances c₁ input w.provider).next).next).next).resp
              err := (api.StartInstances c₂ { input with DryRun := false }
              (api.StartInstances c₂ { input with DryRun := false }
              (api.StartInstances c₁ { input with DryRun := false }
              (api.StartInstances c₁ input w.provider).next).next).next).err } ∧
          (StartInstance c₁ api input w).world.calls.length = w.calls.length + 2 ∧
          (StartInstance c₂ api (StartInstance c₁ api input w).input
              (StartInstance c₁ api input w).world).world.calls.length =
            (StartInstance c₁ api input w).world.calls.length + 2 ∧
          (StartInstance c₂ api (StartInstance c₁ api input w).input
              (StartInstance c₁ api input w).world).world.calls.length =
            w.calls.length + 4) ∧
    (∀ (c₁ c₂ : Context) (api : EC2StopInstancesAPI σ Out)
        (input : StopInstancesInput) (w : World σ EC2StopCall),
        (∀ (c : Context) (i : StopInstancesInput) (s : σ),
          errorCode (api.StopInstances c i s).err = some "DryRunOperation") →
        input.DryRun = true →
        StopInstance c₁ api input w =
            { world :=
                { provider := (api.StopInstances c₁ { input with DryRun := false }
              (api.StopInstances c₁ input w.provider).next).next
                  calls := w.calls ++ [.StopInstances c₁ input, .StopInstances c₁ { input with DryRun := false }] }
              input := { input with DryRun := false }
              resp := (api.StopInstances c₁ { input with DryRun := false }
              (api.StopInstances c₁ input w.provider).next).resp
              err := (api.StopInstances c₁ { input with DryRun := false }
              (api.StopInstances c₁ input w.provider).next).err } ∧
          StopInstance c₂ api (StopInstance c₁ api input w).input (StopInstance c₁ api input w).world =
            { world :=
                { provider := (api.StopInstances c₂ { input with DryRun := false }
              (api.StopInstances c₂ { input with DryRun := false }
              (api.StopInstances c₁ { input with DryRun := false }
              (api.StopInstances c₁ input w.provider).next).next).next).next
                  calls := w.calls ++ [.StopInstances c₁ input, .StopInstances c₁ { input with DryRun := false },
                    .StopInstances c₂ { input with DryRun := false }, .StopInstances c₂ { input with DryRun := false }] }
              input := { input with DryRun := false }
              resp := (api.StopInstances c₂ { input with DryRun := false }
              (api.StopInstances c₂ { input with DryRun := false }
              (api.StopInstances c₁ { input with DryRun := false }
              (api.StopInstances c₁ input w.provider).next).next).next).resp
              err := (api.StopInstances c₂ { input with DryRun := false }
              (api.StopInstances c₂ { input with DryRun := false }
              (api.StopInstances c₁ { input with DryRun := false }
              (api.StopInstances c₁ input w.provider).next).next).next).err } ∧
          (StopInstance c₁ api input w).world.calls.length = w.calls.length + 2 ∧
          (StopInstance c₂ api (StopInstance c₁ api input w).input
              (StopInstance c₁ api input w).world).world.calls.length =
            (StopInstance c₁ api input w).world.calls.length + 2 ∧
          (StopInstance c₂ api (StopInstance c₁ api input w).input
              (StopInstance c₁ api input w).world).world.calls.length =
            w.calls.length + 4) := by
  refine ⟨?_, ?_, ?_, ?_, ?_⟩ <;> intro c₁ c₂ api input w h _
  · simp [EnableMonitoring, World.call, (isDryRunOperation_iff _).2 (h _ _ _)]
  · simp [DisableMonitoring, World.call, (isDryRunOperation_iff _).2 (h _ _ _)]
  · simp [RebootInstance, World.call, (isDryRunOperation_iff _).2 (h _ _ _)]
  · simp [StartInstance, World.call, (isDryRunOperation_iff _).2 (h _ _ _)]
  · simp [StopInstance, World.call, (isDryRunOperation_iff _).2 (h _ _ _)]

/-- Witness of C8: against the provider that counts its calls and answers every
one with the DryRunOperation error, each of the five functions has brought the
provider to 2 calls after the first invocation and to 4 after the second, and
both invocations return the provider's error. -/
theorem always_dryRun_two_calls_each_witness :
    (EnableMonitoring .TODO (monitorAPIOf stubbornReply) ⟨["i-0a1"], true⟩ (freshWorld EC2MonitorCall) =
        { world := { provider := 2, calls := [.MonitorInstances .TODO ⟨["i-0a1"], true⟩, .MonitorInstances .TODO ⟨["i-0a1"], false⟩] }
          input := ⟨["i-0a1"], false⟩
          resp := none
          err := some dryRunError } ∧
      EnableMonitoring .TODO (monitorAPIOf stubbornReply)
          (EnableMonitoring .TODO (monitorAPIOf stubbornReply) ⟨["i-0a1"], true⟩ (freshWorld EC2MonitorCall)).input
          (EnableMonitoring .TODO (monitorAPIOf stubbornReply) ⟨["i-0a1"], true⟩ (freshWorld EC2MonitorCall)).world =
        { world :=
            { provider := 4
              calls := [.MonitorInstances .TODO ⟨["i-0a1"], true⟩, .MonitorInstances .TODO ⟨["i-0a1"], false⟩,
                .MonitorInstances .TODO ⟨["i-0a1"], false⟩, .MonitorInstances .TODO ⟨["i-0a1"], false⟩] }
          input := ⟨["i-0a1"], false⟩
          resp := none
          err := some dryRunError } ∧
      (EnableMonitoring .TODO (monitorAPIOf stubbornReply) ⟨["i-0a1"], true⟩ (freshWorld EC2MonitorCall)).world.calls.length = 2 ∧
      (EnableMonitoring .TODO (monitorAPIOf stubbornReply)
          (EnableMonitoring .TODO (monitorAPIOf stubbornReply) ⟨["i-0a1"], true⟩ (freshWorld EC2MonitorCall)).input
          (EnableMonitoring .TODO (monitorAPIOf stubbornReply) ⟨["i-0a1"], true⟩ (freshWorld EC2MonitorCall)).world).world.calls.length = 4) ∧
    (DisableMonitoring .TODO (monitorAPIOf stubbornReply) ⟨["i-0a1"], true⟩ (freshWorld EC2MonitorCall) =
        { world := { provider := 2, calls := [.UnmonitorInstances .TODO ⟨["i-0a1"], true⟩, .UnmonitorInstances .TODO ⟨["i-0a1"], false⟩] }
          input := ⟨["i-0a1"], false⟩
          resp := none
          err := some dryRunError } ∧
      DisableMonitoring .TODO (monitorAPIOf stubbornReply)
          (DisableMonitoring .TODO (monitorAPIOf stubbornReply) ⟨["i-0a1"], true⟩ (freshWorld EC2MonitorCall)).input
          (DisableMonitoring .TODO (monitorAPIOf stubbornReply) ⟨["i-0a1"], true⟩ (freshWorld EC2MonitorCall)).world =
        { world :=
            { provider := 4
              calls := [.UnmonitorInstances .TODO ⟨["i-0a1"], true⟩, .UnmonitorInstances .TODO ⟨["i-0a1"], false⟩,
                .UnmonitorInstances .TODO ⟨["i-0a1"], false⟩, .UnmonitorInstances .TODO ⟨["i-0a1"], false⟩] }
          input := ⟨["i-0a1"], false⟩
          resp := none
          err := some dryRunError } ∧
      (DisableMonitoring .TODO (monitorAPIOf stubbornReply) ⟨["i-0a1"], true⟩ (freshWorld EC2MonitorCall)).world.calls.length = 2 ∧
      (DisableMonitoring .TODO (monitorAPIOf stubbornReply)
          (DisableMonitoring .TODO (monitorAPIOf stubbornReply) ⟨["i-0a1"], true⟩ (freshWorld EC2MonitorCall)).input
          (DisableMonitoring .TODO (monitorAPIOf stubbornReply) ⟨["i-0a1"], true⟩ (freshWorld EC2MonitorCall)).world).world.calls.length = 4) ∧
    (RebootInstance .TODO (rebootAPIOf stubbornReply) ⟨["i-0a1", "i-0b2"], true⟩ (freshWorld EC2RebootCall) =
        { world := { provider := 2, calls := [.RebootInstances .TODO ⟨["i-0a1", "i-0b2"], true⟩, .RebootInstances .TODO ⟨["i-0a1", "i-0b2"], false⟩] }
          input := ⟨["i-0a1", "i-0b2"], false⟩
          resp := none
          err := some dryRunError } ∧
      RebootInstance .TODO (rebootAPIOf stubbornReply)
          (RebootInstance .TODO (rebootAPIOf stubbornReply) ⟨["i-0a1", "i-0b2"], true⟩ (freshWorld EC2RebootCall)).input
          (RebootInstance .TODO (rebootAPIOf stubbornReply) ⟨["i-0a1", "i-0b2"], true⟩ (freshWorld EC2RebootCall)).world =
        { world :=
            { provider := 4
              calls := [.RebootInstances .TODO ⟨["i-0a1", "i-0b2"], true⟩, .RebootInstances .TODO ⟨["i-0a1", "i-0b2"], false⟩,
                .RebootInstances .TODO ⟨["i-0a1", "i-0b2"], false⟩, .RebootInstances .TODO ⟨["i-0a1", "i-0b2"], false⟩] }
          input := ⟨["i-0a1", "i-0b2"], false⟩
          resp := none
          err := some dryRunError } ∧
      (RebootInstance .TODO (rebootAPIOf stubbornReply) ⟨["i-0a1", "i-0b2"], true⟩ (freshWorld EC2RebootCall)).world.calls.length = 2 ∧
      (RebootInstance .TODO (rebootAPIOf stubbornReply)
          (RebootInstance .TODO (rebootAPIOf stubbornReply) ⟨["i-0a1", "i-0b2"], true⟩ (freshWorld EC2RebootCall)).input
          (RebootInstance .TODO (rebootAPIOf stubbornReply) ⟨["i-0a1", "i-0b2"], true⟩ (freshWorld EC2RebootCall)).world).world.calls.length = 4) ∧
    (StartInstance .TODO (startAPIOf stubbornReply) ⟨["i-0a1"], some "info", true⟩ (freshWorld EC2StartCall) =
        { world := { provider := 2, calls := [.StartInstances .TODO ⟨["i-0a1"], some "info", true⟩, .StartInstances .TODO ⟨["i-0a1"], some "info", false⟩] }
          input := ⟨["i-0a1"], some "info", false⟩
          resp := none
          err := some dryRunError } ∧
      StartInstance .TODO (startAPIOf stubbornReply)
          (StartInstance .TODO (startAPIOf stubbornReply) ⟨["i-0a1"], some "info", true⟩ (freshWorld EC2StartCall)).input
          (StartInstance .TODO (startAPIOf stubbornReply) ⟨["i-0a1"], some "info", true⟩ (freshWorld EC2StartCall)).world =
        { world :=
            { provider := 4
              calls := [.StartInstances .TODO ⟨["i-0a1"], some "info", true⟩, .StartInstances .TODO ⟨["i-0a1"], some "info", false⟩,
                .StartInstances .TODO ⟨["i-0a1"], some "info", false⟩, .StartInstances .TODO ⟨["i-0a1"], some "info", false⟩] }
          input := ⟨["i-0a1"], some "info", false⟩
          resp := none
          err := some dryRunError } ∧
      (StartInstance .TODO (startAPIOf stubbornReply) ⟨["i-0a1"], some "info", true⟩ (freshWorld EC2StartCall)).world.calls.length = 2 ∧
      (StartInstance .TODO (startAPIOf stubbornReply)
          (StartInstance .TODO (startAPIOf stubbornReply) ⟨["i-0a1"], some "info", true⟩ (freshWorld EC2StartCall)).input
          (StartInstance .TODO (startAPIOf stubbornReply) ⟨["i-0a1"], some "info", true⟩ (freshWorld EC2StartCall)).world).world.calls.length = 4) ∧
    (StopInstance .TODO (stopAPIOf stubbornReply) ⟨["i-0a1"], true, true, false⟩ (freshWorld EC2StopCall) =
        { world := { provider := 2, calls := [.StopInstances .TODO ⟨["i-0a1"], true, true, false⟩, .StopInstances .TODO ⟨["i-0a1"], false, true, false⟩] }
          input := ⟨["i-0a1"], false, true, false⟩
          resp := none
          err := some dryRunError } ∧
      StopInstance .TODO (stopAPIOf stubbornReply)
          (StopInstance .TODO (stopAPIOf stubbornReply) ⟨["i-0a1"], true, true, false⟩ (freshWorld EC2StopCall)).input
          (StopInstance .TODO (stopAPIOf stubbornReply) ⟨["i-0a1"], true, true, false⟩ (freshWorld EC2StopCall)).world =
        { world :=
            { provider := 4
              calls := [.StopInstances .TODO ⟨["i-0a1"], true, true, false⟩, .StopInstances .TODO ⟨["i-0a1"], false, true, false⟩,
                .StopInstances .TODO ⟨["i-0a1"], false, true, false⟩, .StopInstances .TODO ⟨["i-0a1"], false, true, false⟩] }
          input := ⟨["i-0a1"], false, true, false⟩
          resp := none
          err := some dryRunError } ∧
      (StopInstance .TODO (stopAPIOf stubbornReply) ⟨["i-0a1"], true, true, false⟩ (freshWorld EC2StopCall)).world.calls.length = 2 ∧
      (StopInstance .TODO (stopAPIOf stubbornReply)
          (StopInstance .TODO (stopAPIOf stubbornReply) ⟨["i-0a1"], true, true, false⟩ (freshWorld EC2StopCall)).input
          (StopInstance .TODO (stopAPIOf stubbornReply) ⟨["i-0a1"], true, true, false⟩ (freshWorld EC2StopCall)).world).world.calls.length = 4) :=
  ⟨(fun h => ⟨h.1, h.2.1, h.2.2.1, h.2.2.2.2⟩)
      ((@always_dryRun_two_calls_each Nat String String String).1 .TODO .TODO (monitorAPIOf stubbornReply)
        ⟨["i-0a1"], true⟩ (freshWorld EC2MonitorCall) (fun _ _ _ => rfl) rfl),
    (fun h => ⟨h.1, h.2.1, h.2.2.1, h.2.2.2.2⟩)
      ((@always_dryRun_two_calls_each Nat String String String).2.1 .TODO .TODO (monitorAPIOf stubbornReply)
        ⟨["i-0a1"], true⟩ (freshWorld EC2MonitorCall) (fun _ _ _ => rfl) rfl),
    (fun h => ⟨h.1, h.2.1, h.2.2.1, h.2.2.2.2⟩)
      ((@always_dryRun_two_calls_each Nat String String String).2.2.1 .TODO .TODO (rebootAPIOf stubbornReply)
        ⟨["i-0a1", "i-0b2"], true⟩ (freshWorld EC2RebootCall) (fun _ _ _ => rfl) rfl),
    (fun h => ⟨h.1, h.2.1, h.2.2.1, h.2.2.2.2⟩)
      ((@always_dryRun_two_calls_each Nat String String String).2.2.2.1 .TODO .TODO (startAPIOf stubbornReply)
        ⟨["i-0a1"], some "info", true⟩ (freshWorld EC2StartCall) (fun _ _ _ => rfl) rfl),
    (fun h => ⟨h.1, h.2.1, h.2.2.1, h.2.2.2.2⟩)
      ((@always_dryRun_two_calls_each Nat String String String).2.2.2.2 .TODO .TODO (stopAPIOf stubbornReply)
        ⟨["i-0a1"], true, true, false⟩ (freshWorld EC2StopCall) (fun _ _ _ => rfl) rfl)⟩

/-- What the five dry-run retry functions do on a first error that is not
classified "DryRunOperation": after that single call they return the original
error, and the result exactly as the provider gave it. With a provider that
gives a nil result with its errors, as the SDK clients do, the returned result
is nil. -/
theorem other_error_returned_unchanged {σ MOut UOut Out : Type} :
    (∀ (c : Context) (api : EC2MonitorInstancesAPI σ MOut UOut)
        (input : MonitorInstancesInput) (w : World σ EC2MonitorCall),
        (api.MonitorInstances c input w.provider).err ≠ none →
        errorCode (api.MonitorInstances c input w.provider).err ≠ some "DryRunOperation" →
        (EnableMonitoring c api input w).err = (api.MonitorInstances c input w.provider).err ∧
          (EnableMonitoring c api input w).resp = (api.MonitorInstances c input w.provider).resp ∧
          ((api.MonitorInstances c input w.provider).resp = none → (EnableMonitoring c api input w).resp = none) ∧
          (EnableMonitoring c api input w).world.calls = w.calls ++ [.MonitorInstances c input]) ∧
    (∀ (c : Context) (api : EC2MonitorInstancesAPI σ MOut UOut)
        (input : UnmonitorInstancesInput) (w : World σ EC2MonitorCall),
        (api.UnmonitorInstances c input w.provider).err ≠ none →
        errorCode (api.UnmonitorInstances c input w.provider).err ≠ some "DryRunOperation" →
        (DisableMonitoring c api input w).err = (api.UnmonitorInstances c input w.provider).err ∧
          (DisableMonitoring c api input w).resp = (api.UnmonitorInstances c input w.provider).resp ∧
          ((api.UnmonitorInstances c input w.provider).resp = none → (DisableMonitoring c api input w).resp = none) ∧
          (DisableMonitoring c api input w).world.calls = w.calls ++ [.UnmonitorInstances c input]) ∧
    (∀ (c : Context) (api : EC2RebootInstancesAPI σ Out)
        (input : RebootInstancesInput) (w : World σ EC2RebootCall),
        (api.RebootInstances c input w.provider).err ≠ none →
        errorCode (api.RebootInstances c input w.provider).err ≠ some "DryRunOperation" →
        (RebootInstance c api input w).err = (api.RebootInstances c input w.provider).err ∧
          (RebootInstance c api input w).resp = (api.RebootInstances c input w.provider).resp ∧
          ((api.RebootInstances c input w.provider).resp = none → (RebootInstance c api input w).resp = none) ∧
          (RebootInstance c api input w).world.calls = w.calls ++ [.RebootInstances c input]) ∧
    (∀ (c : Context) (api : EC2StartInstancesAPI σ Out)
        (input : StartInstancesInput) (w : World σ EC2StartCall),
        (api.StartInstances c input w.provider).err ≠ none →
        errorCode (api.StartInstances c input w.provider).err ≠ some "DryRunOperation" →
        (StartInstance c api input w).err = (api.StartInstances c input w.provider).err ∧
          (StartInstance c api input w).resp = (api.StartInstances c input w.provider).resp ∧
          ((api.StartInstances c input w.provider).resp = none → (StartInstance c api input w).resp = none) ∧
          (StartInstance c api input w).world.calls = w.calls ++ [.StartInstances c input]) ∧
    (∀ (c : Context) (api : EC2StopInstancesAPI σ Out)
        (input : StopInstancesInput) (w : World σ EC2StopCall),
        (api.StopInstances c input w.provider).err ≠ none →
        errorCode (api.StopInstances c input w.provider).err ≠ some "DryRunOperation" →
        (StopInstance c api input w).err = (api.StopInstances c input w.provider).err ∧
          (StopInstance c api input w).resp = (api.StopInstances c input w.provider).resp ∧
          ((api.StopInstances c input w.provider).resp = none → (StopInstance c api input w).resp = none) ∧
          (StopInstance c api input w).world.calls = w.calls ++ [.StopInstances c input]) := by
  refine ⟨?_, ?_, ?_, ?_, ?_⟩ <;> intro c api input w _ h
  · simp [EnableMonitoring, World.call, isDryRunOperation_eq_false _ h]
  · simp [DisableMonitoring, World.call, isDryRunOperation_eq_false _ h]
  · simp [RebootInstance, World.call, isDryRunOperation_eq_false _ h]
  · simp [StartInstance, World.call, isDryRunOperation_eq_false _ h]
  · simp [StopInstance, World.call, isDryRunOperation_eq_false _ h]

/-- Against a provider that refuses every call with a nil result and an
UnauthorizedOperation error, as an SDK client does, each of the five functions
returns nil and that error. -/
theorem refused_call_returns_nil :
    (((monitorAPIOf refusedReply).MonitorInstances .TODO ⟨["i-0a1"], true⟩ 0).err ≠ none ∧
      errorCode ((monitorAPIOf refusedReply).MonitorInstances .TODO ⟨["i-0a1"], true⟩ 0).err ≠ some "DryRunOperation" ∧
      (EnableMonitoring .TODO (monitorAPIOf refusedReply) ⟨["i-0a1"], true⟩ (freshWorld EC2MonitorCall)).err = some unauthorizedError ∧
      (EnableMonitoring .TODO (monitorAPIOf refusedReply) ⟨["i-0a1"], true⟩ (freshWorld EC2MonitorCall)).resp = none) ∧
    (((monitorAPIOf refusedReply).UnmonitorInstances .TODO ⟨["i-0a1"], true⟩ 0).err ≠ none ∧
      errorCode ((monitorAPIOf refusedReply).UnmonitorInstances .TODO ⟨["i-0a1"], true⟩ 0).err ≠ some "DryRunOperation" ∧
      (DisableMonitoring .TODO (monitorAPIOf refusedReply) ⟨["i-0a1"], true⟩ (freshWorld EC2MonitorCall)).err = some unauthorizedError ∧
      (DisableMonitoring .TODO (monitorAPIOf refusedReply) ⟨["i-0a1"], true⟩ (freshWorld EC2MonitorCall)).resp = none) ∧
    (((rebootAPIOf refusedReply).RebootInstances .TODO ⟨["i-0a1", "i-0b2"], true⟩ 0).err ≠ none ∧
      errorCode ((rebootAPIOf refusedReply).RebootInstances .TODO ⟨["i-0a1", "i-0b2"], true⟩ 0).err ≠ some "DryRunOperation" ∧
      (RebootInstance .TODO (rebootAPIOf refusedReply) ⟨["i-0a1", "i-0b2"], true⟩ (freshWorld EC2RebootCall)).err = some unauthorizedError ∧
      (RebootInstance .TODO (rebootAPIOf refusedReply) ⟨["i-0a1", "i-0b2"], true⟩ (freshWorld EC2RebootCall)).resp = none) ∧
    (((startAPIOf refusedReply).StartInstances .TODO ⟨["i-0a1"], some "info", true⟩ 0).err ≠ none ∧
      errorCode ((startAPIOf refusedReply).StartInstances .TODO ⟨["i-0a1"], some "info", true⟩ 0).err ≠ some "DryRunOperation" ∧
      (StartInstance .TODO (startAPIOf refusedReply) ⟨["i-0a1"], some "info", true⟩ (freshWorld EC2StartCall)).err = some unauthorizedError ∧
      (StartInstance .TODO (startAPIOf refusedReply) ⟨["i-0a1"], some "info", true⟩ (freshWorld EC2StartCall)).resp = none) ∧
    (((stopAPIOf refusedReply).StopInstances .TODO ⟨["i-0a1"], true, true, false⟩ 0).err ≠ none ∧
      errorCode ((stopAPIOf refusedReply).StopInstances .TODO ⟨["i-0a1"], true, true, false⟩ 0).err ≠ some "DryRunOperation" ∧
      (StopInstance .TODO (stopAPIOf refusedReply) ⟨["i-0a1"], true, true, false⟩ (freshWorld EC2StopCall)).err = some unauthorizedError ∧
      (StopInstance .TODO (stopAPIOf refusedReply) ⟨["i-0a1"], true, true, false⟩ (freshWorld EC2StopCall)).resp = none) :=
  ⟨⟨by decide, by decide,
      ((@other_error_returned_unchanged Nat String String String).1 .TODO (monitorAPIOf refusedReply)
        ⟨["i-0a1"], true⟩ (freshWorld EC2MonitorCall) (by decide) (by decide)).1,
      ((@other_error_returned_unchanged Nat String String String).1 .TODO (monitorAPIOf refusedReply)
        ⟨["i-0a1"], true⟩ (freshWorld EC2MonitorCall) (by decide) (by decide)).2.2.1 rfl⟩,
    ⟨by decide, by decide,
      ((@other_error_returned_unchanged Nat String String String).2.1 .TODO (monitorAPIOf refusedReply)
        ⟨["i-0a1"], true⟩ (freshWorld EC2MonitorCall) (by decide) (by decide)).1,
      ((@other_error_returned_unchanged Nat String String String).2.1 .TODO (monitorAPIOf refusedReply)
        ⟨["i-0a1"], true⟩ (freshWorld EC2MonitorCall) (by decide) (by decide)).2.2.1 rfl⟩,
    ⟨by decide, by decide,
      ((@other_error_returned_unchanged Nat String String String).2.2.1 .TODO (rebootAPIOf refusedReply)
        ⟨["i-0a1", "i-0b2"], true⟩ (freshWorld EC2RebootCall) (by decide) (by decide)).1,
      ((@other_error_returned_unchanged Nat String String String).2.2.1 .TODO (rebootAPIOf refusedReply)
        ⟨["i-0a1", "i-0b2"], true⟩ (freshWorld EC2RebootCall) (by decide) (by decide)).2.2.1 rfl⟩,
    ⟨by decide, by decide,
      ((@other_error_returned_unchanged Nat String String String).2.2.2.1 .TODO (startAPIOf refusedReply)
        ⟨["i-0a1"], some "info", true⟩ (freshWorld EC2StartCall) (by decide) (by decide)).1,
      ((@other_error_returned_unchanged Nat String String String).2.2.2.1 .TODO (startAPIOf refusedReply)
        ⟨["i-0a1"], some "info", true⟩ (freshWorld EC2StartCall) (by decide) (by decide)).2.2.1 rfl⟩,
    ⟨by decide, by decide,
      ((@other_error_returned_unchanged Nat String String String).2.2.2.2 .TODO (stopAPIOf refusedReply)
        ⟨["i-0a1"], true, true, false⟩ (freshWorld EC2StopCall) (by decide) (by decide)).1,
      ((@other_error_returned_unchanged Nat String String String).2.2.2.2 .TODO (stopAPIOf refusedReply)
        ⟨["i-0a1"], true, true, false⟩ (freshWorld EC2StopCall) (by decide) (by decide)).2.2.1 rfl⟩⟩

/-! ## Job submission -/

/-- When the resolution call returns an error, `SubmitJob` stops after it and
returns false. -/
theorem SubmitJob_of_resolve_error {σ DOut ROut : Type} (client : SQSAPI σ DOut ROut)
    (now : Int) (queueName : String) (inst : InstanceInfo) (fileKey s3bucket : String)
    (w : World σ SQSCall)
    (h : (client.GetQueueUrl .TODO { QueueName := some queueName } w.provider).err ≠ none) :
    SubmitJob client now queueName inst fileKey s3bucket w =
      { world :=
          { provider := (client.GetQueueUrl .TODO { QueueName := some queueName } w.provider).next
            calls := w.calls ++ [.GetQueueUrl .TODO { QueueName := some queueName }] }
        outcome := .ret false } := by
  simp [SubmitJob, GetQueueURL, World.call, h]

/-- When the resolution call returns a nil error and a nil result, `SubmitJob`
aborts on `result.QueueUrl`, after that one call. -/
theorem SubmitJob_of_resolve_nil {σ DOut ROut : Type} (client : SQSAPI σ DOut ROut)
    (now : Int) (queueName : String) (inst : InstanceInfo) (fileKey s3bucket : String)
    (w : World σ SQSCall)
    (herr : (client.GetQueueUrl .TODO { QueueName := some queueName } w.provider).err = none)
    (hres : (client.GetQueueUrl .TODO { QueueName := some queueName } w.provider).resp = none) :
    SubmitJob client now queueName inst fileKey s3bucket w =
      { world :=
          { provider := (client.GetQueueUrl .TODO { QueueName := some queueName } w.provider).next
            calls := w.calls ++ [.GetQueueUrl .TODO { QueueName := some queueName }] }
        outcome := .nilDeref } := by
  simp [SubmitJob, GetQueueURL, World.call, herr, hres]

/-- When the resolution call succeeds with a result, `SubmitJob` makes the send
call on the request `sMInput` and no other call. -/
theorem SubmitJob_world_of_resolved {σ DOut ROut : Type} (client : SQSAPI σ DOut ROut)
    (now : Int) (queueName : String) (inst : InstanceInfo) (fileKey s3bucket : String)
    (w : World σ SQSCall) (result : GetQueueUrlOutput)
    (herr : (client.GetQueueUrl .TODO { QueueName := some queueName } w.provider).err = none)
    (hres : (client.GetQueueUrl .TODO { QueueName := some queueName } w.provider).resp =
      some result) :
    (SubmitJob client now queueName inst fileKey s3bucket w).world =
      { provider :=
          (client.SendMessage .TODO (sMInput now inst fileKey s3bucket result.QueueUrl)
            (client.GetQueueUrl .TODO { QueueName := some queueName } w.provider).next).next
        calls := w.calls ++ [.GetQueueUrl .TODO { QueueName := some queueName },
          .SendMessage .TODO (sMInput now inst fileKey s3bucket result.QueueUrl)] } := by
  simp only [SubmitJob, GetQueueURL, SendMsg, World.call, herr, hres]
  generalize client.SendMessage .TODO (sMInput now inst fileKey s3bucket result.QueueUrl)
    (client.GetQueueUrl .TODO { QueueName := some queueName } w.provider).next = r2
  rcases r2 with ⟨next, resp, err⟩
  cases err <;> cases resp <;> simp
  rename_i resp
  cases resp.MessageId <;> cases result.QueueUrl <;> simp

/-- When the resolution call succeeds with a result, what `SubmitJob` returns is
decided by the reply to the send call. -/
theorem SubmitJob_outcome_of_resolved {σ DOut ROut : Type} (client : SQSAPI σ DOut ROut)
    (now : Int) (queueName : String) (inst : InstanceInfo) (fileKey s3bucket : String)
    (w : World σ SQSCall) (result : GetQueueUrlOutput)
    (herr : (client.GetQueueUrl .TODO { QueueName := some queueName } w.provider).err = none)
    (hres : (client.GetQueueUrl .TODO { QueueName := some queueName } w.provider).resp =
      some result) :
    (SubmitJob client now queueName inst fileKey s3bucket w).outcome =
      if (client.SendMessage .TODO (sMInput now inst fileKey s3bucket result.QueueUrl)
          (client.GetQueueUrl .TODO { QueueName := some queueName } w.provider).next).err ≠ none
      then .ret false
      else
        match (client.SendMessage .TODO (sMInput now inst fileKey s3bucket result.QueueUrl)
          (client.GetQueueUrl .TODO { QueueName := some queueName } w.provider).next).resp with
        | none => .nilDeref
        | some resp =>
          match resp.MessageId, result.QueueUrl with
          | some _, some _ => .ret true
          | _, _ => .nilDeref := by
  simp only [SubmitJob, GetQueueURL, SendMsg, World.call, herr, hres]
  generalize client.SendMessage .TODO (sMInput now inst fileKey s3bucket result.QueueUrl)
    (client.GetQueueUrl .TODO { QueueName := some queueName } w.provider).next = r2
  rcases r2 with ⟨next, resp, err⟩
  cases err <;> cases resp <;> simp
  rename_i resp
  cases resp.MessageId <;> cases result.QueueUrl <;> simp

/-- C4. For every fileKey, bucket name, instance, queue name, clock reading,
provider and world: when the queue URL resolution succeeds (nil error, with a
result), SubmitJob issues exactly one send request, after the resolution call;
its message body is exactly fileKey ++ " " ++ bucket and its queue URL is the
URL pointer of the resolution result. -/
theorem SubmitJob_sends_body_to_resolved_url {σ DOut ROut : Type}
    (client : SQSAPI σ DOut ROut) (now : Int) (queueName : String) (inst : InstanceInfo)
    (fileKey s3bucket : String) (w : World σ SQSCall) (result : GetQueueUrlOutput)
    (herr : (client.GetQueueUrl .TODO { QueueName := some queueName } w.provider).err = none)
    (hres : (client.GetQueueUrl .TODO { QueueName := some queueName } w.provider).resp =
      some result) :
    ∃ request : SendMessageInput,
      (SubmitJob client now queueName inst fileKey s3bucket w).world.calls =
          w.calls ++ [.GetQueueUrl .TODO { QueueName := some queueName },
            .SendMessage .TODO request] ∧
        request.MessageBody = some (fileKey ++ " " ++ s3bucket) ∧
        request.QueueUrl = result.QueueUrl := by
  refine ⟨sMInput now inst fileKey s3bucket result.QueueUrl, ?_, rfl, rfl⟩
  rw [SubmitJob_world_of_resolved client now queueName inst fileKey s3bucket w result herr hres]

/-- Witness of C4: the queue "jobs" resolves to https://queue.example/jobs, and
submitting fileKey "fileKeyValue" and bucket "s3bucketName" for the worker
"testId0" issues one send request with body "fileKeyValue s3bucketName" to that
URL. -/
theorem SubmitJob_sends_body_to_resolved_url_witness :
    ((sqsAPIOf resolveJobs sendAccepted).GetQueueUrl .TODO { QueueName := some "jobs" } 0).err =
        none ∧
      ((sqsAPIOf resolveJobs sendAccepted).GetQueueUrl .TODO { QueueName := some "jobs" } 0).resp =
        some { QueueUrl := some "https://queue.example/jobs" } ∧
      ∃ request : SendMessageInput,
        (SubmitJob (sqsAPIOf resolveJobs sendAccepted) 1700000000123456789 "jobs" workerTest
            "fileKeyValue" "s3bucketName" (freshWorld SQSCall)).world.calls =
            [.GetQueueUrl .TODO { QueueName := some "jobs" }, .SendMessage .TODO request] ∧
          request.MessageBody = some "fileKeyValue s3bucketName" ∧
          request.QueueUrl = some "https://queue.example/jobs" :=
  ⟨by decide, by decide,
    SubmitJob_sends_body_to_resolved_url (sqsAPIOf resolveJobs sendAccepted) 1700000000123456789
      "jobs" workerTest "fileKeyValue" "s3bucketName" (freshWorld SQSCall)
      { QueueUrl := some "https://queue.example/jobs" } (by decide) (by decide)⟩

/-- C5. For every input, provider and world: if the queue URL resolution call
returns an error, SubmitJob returns false and makes no send-message call; the
only provider call of the invocation is the single URL resolution. -/
theorem SubmitJob_resolve_error_returns_false {σ DOut ROut : Type}
    (client : SQSAPI σ DOut ROut) (now : Int) (queueName : String) (inst : InstanceInfo)
    (fileKey s3bucket : String) (w : World σ SQSCall)
    (h : (client.GetQueueUrl .TODO { QueueName := some queueName } w.provider).err ≠ none) :
    (SubmitJob client now queueName inst fileKey s3bucket w).outcome = .ret false ∧
      (SubmitJob client now queueName inst fileKey s3bucket w).world.calls =
        w.calls ++ [.GetQueueUrl .TODO { QueueName := some queueName }] ∧
      ∀ (c : Context) (request : SendMessageInput),
        SQSCall.SendMessage c request ∉
          [SQSCall.GetQueueUrl .TODO { QueueName := some queueName }] := by
  rw [SubmitJob_of_resolve_error client now queueName inst fileKey s3bucket w h]
  simp

/-- Witness of C5: the queue "nope" does not exist, and submitting to it returns
false after the one resolution call. -/
theorem SubmitJob_resolve_error_returns_false_witness :
    ((sqsAPIOf resolveJobs sendAccepted).GetQueueUrl .TODO { QueueName := some "nope" } 0).err ≠
        none ∧
      (SubmitJob (sqsAPIOf resolveJobs sendAccepted) 1700000000123456789 "nope" workerTest
        "fileKeyValue" "s3bucketName" (freshWorld SQSCall)).outcome = .ret false ∧
      (SubmitJob (sqsAPIOf resolveJobs sendAccepted) 1700000000123456789 "nope" workerTest
        "fileKeyValue" "s3bucketName" (freshWorld SQSCall)).world.calls =
        [.GetQueueUrl .TODO { QueueName := some "nope" }] :=
  ⟨by decide,
    (SubmitJob_resolve_error_returns_false (sqsAPIOf resolveJobs sendAccepted) 1700000000123456789
      "nope" workerTest "fileKeyValue" "s3bucketName" (freshWorld SQSCall) (by decide)).1,
    (SubmitJob_resolve_error_returns_false (sqsAPIOf resolveJobs sendAccepted) 1700000000123456789
      "nope" workerTest "fileKeyValue" "s3bucketName" (freshWorld SQSCall) (by decide)).2.1⟩

/-- Counterexample to C6 as stated: against a provider whose resolution
succeeds and whose send succeeds with a response that carries no message id,
SubmitJob makes both calls, both return a nil error, and the run aborts on the
dereference of the message id instead of returning true. -/
theorem SubmitJob_both_succeed_not_true :
    ((sqsAPIOf resolveJobs sendWithoutId).GetQueueUrl .TODO { QueueName := some "jobs" } 0).err =
        none ∧
      ((sqsAPIOf resolveJobs sendWithoutId).SendMessage .TODO
        (sMInput 1700000000123456789 workerTest "fileKeyValue" "s3bucketName"
          (some "https://queue.example/jobs")) 1).err = none ∧
      (SubmitJob (sqsAPIOf resolveJobs sendWithoutId) 1700000000123456789 "jobs" workerTest
        "fileKeyValue" "s3bucketName" (freshWorld SQSCall)).world.calls =
        [.GetQueueUrl .TODO { QueueName := some "jobs" },
          .SendMessage .TODO (sMInput 1700000000123456789 workerTest "fileKeyValue" "s3bucketName"
            (some "https://queue.example/jobs"))] ∧
      (SubmitJob (sqsAPIOf resolveJobs sendWithoutId) 1700000000123456789 "jobs" workerTest
        "fileKeyValue" "s3bucketName" (freshWorld SQSCall)).outcome = .nilDeref ∧
      (SubmitJob (sqsAPIOf resolveJobs sendWithoutId) 1700000000123456789 "jobs" workerTest
        "fileKeyValue" "s3bucketName" (freshWorld SQSCall)).outcome ≠ .ret true := by
  decide

/-- C6, amended. For every provider and input, SubmitJob returns true if and
only if the queue URL resolution and the subsequent send both succeed (nil
error, with a result) and the queue URL of the resolution result and the message
id of the send response are present; if either call returns an error it returns
false; and it never retries either call: an invocation makes the one resolution
call, followed by at most one send call. -/
theorem SubmitJob_true_iff {σ DOut ROut : Type}
    (client : SQSAPI σ DOut ROut) (now : Int) (queueName : String) (inst : InstanceInfo)
    (fileKey s3bucket : String) (w : World σ SQSCall) :
    ((SubmitJob client now queueName inst fileKey s3bucket w).outcome = .ret true ↔
      (client.GetQueueUrl .TODO { QueueName := some queueName } w.provider).err = none ∧
      ∃ result : GetQueueUrlOutput,
        (client.GetQueueUrl .TODO { QueueName := some queueName } w.provider).resp =
          some result ∧
        result.QueueUrl ≠ none ∧
        (client.SendMessage .TODO (sMInput now inst fileKey s3bucket result.QueueUrl)
          (client.GetQueueUrl .TODO { QueueName := some queueName } w.provider).next).err =
          none ∧
        ∃ resp : SendMessageOutput,
          (client.SendMessage .TODO (sMInput now inst fileKey s3bucket result.QueueUrl)
            (client.GetQueueUrl .TODO { QueueName := some queueName } w.provider).next).resp =
            some resp ∧
          resp.MessageId ≠ none) ∧
    ((client.GetQueueUrl .TODO { QueueName := some queueName } w.provider).err ≠ none →
      (SubmitJob client now queueName inst fileKey s3bucket w).outcome = .ret false) ∧
    (∀ result : GetQueueUrlOutput,
      (client.GetQueueUrl .TODO { QueueName := some queueName } w.provider).err = none →
      (client.GetQueueUrl .TODO { QueueName := some queueName } w.provider).resp =
        some result →
      (client.SendMessage .TODO (sMInput now inst fileKey s3bucket result.QueueUrl)
        (client.GetQueueUrl .TODO { QueueName := some queueName } w.provider).next).err ≠
        none →
      (SubmitJob client now queueName inst fileKey s3bucket w).outcome = .ret false) ∧
    ((SubmitJob client now queueName inst fileKey s3bucket w).world.calls =
        w.calls ++ [.GetQueueUrl .TODO { QueueName := some queueName }] ∨
      ∃ request : SendMessageInput,
        (SubmitJob client now queueName inst fileKey s3bucket w).world.calls =
          w.calls ++ [.GetQueueUrl .TODO { QueueName := some queueName },
            .SendMessage .TODO request]) := by
  cases herr : (client.GetQueueUrl .TODO { QueueName := some queueName } w.provider).err with
  | some e =>
    have h : (client.GetQueueUrl .TODO { QueueName := some queueName } w.provider).err ≠ none := by
      simp [herr]
    rw [SubmitJob_of_resolve_error client now queueName inst fileKey s3bucket w h]
    simp
  | none =>
    cases hres : (client.GetQueueUrl .TODO { QueueName := some queueName } w.provider).resp with
    | none =>
      rw [SubmitJob_of_resolve_nil client now queueName inst fileKey s3bucket w herr hres]
      simp
    | some result =>
      have hw := SubmitJob_world_of_resolved client now queueName inst fileKey s3bucket w result
        herr hres
      have ho := SubmitJob_outcome_of_resolved client now queueName inst fileKey s3bucket w result
        herr hres
      rw [ho, hw]
      refine ⟨⟨?_, ?_⟩, ?_, ?_, Or.inr ⟨_, rfl⟩⟩
      · intro h
        refine ⟨rfl, result, rfl, ?_⟩
        revert h
        generalize client.SendMessage .TODO (sMInput now inst fileKey s3bucket result.QueueUrl)
          (client.GetQueueUrl .TODO { QueueName := some queueName } w.provider).next = r2
        rcases r2 with ⟨next, _ | ⟨_ | id⟩, _ | err⟩ <;> cases result.QueueUrl <;> simp
      · rintro ⟨-, result', hres', hq, herr2, resp, hresp, hid⟩
        cases hres'
        rw [if_neg (by simp [herr2]), hresp]
        cases hm : resp.MessageId with
        | none => exact absurd hm hid
        | some id =>
          cases hu : result.QueueUrl with
          | none => exact absurd hu hq
          | some url => simp [hm]
      · simp
      · intro result' _ h hne
        cases h
        simp [hne]

/-- Witness of C6, amended: with the queue "jobs" resolved and the message
accepted under an id, SubmitJob returns true; with a failing send it returns
false. -/
theorem SubmitJob_true_iff_witness :
    (SubmitJob (sqsAPIOf resolveJobs sendAccepted) 1700000000123456789 "jobs" workerTest
      "fileKeyValue" "s3bucketName" (freshWorld SQSCall)).outcome = .ret true ∧
    (SubmitJob (sqsAPIOf resolveJobs sendFailed) 1700000000123456789 "jobs" workerTest
      "fileKeyValue" "s3bucketName" (freshWorld SQSCall)).outcome = .ret false :=
  ⟨(SubmitJob_true_iff (sqsAPIOf resolveJobs sendAccepted) 1700000000123456789 "jobs" workerTest
      "fileKeyValue" "s3bucketName" (freshWorld SQSCall)).1.2
      ⟨by decide, { QueueUrl := some "https://queue.example/jobs" }, by decide, by decide,
        by decide, { MessageId := some "msg-0001" }, by decide, by decide⟩,
    (SubmitJob_true_iff (sqsAPIOf resolveJobs sendFailed) 1700000000123456789 "jobs" workerTest
      "fileKeyValue" "s3bucketName" (freshWorld SQSCall)).2.2.1
      { QueueUrl := some "https://queue.example/jobs" } (by decide) (by decide) (by decide)⟩

/-- C7. For every instance and clock reading (and provider, queue, file key and
bucket), when the resolution succeeds the send request built by SubmitJob has a
delivery delay of exactly 10 seconds and exactly four message attributes:
"JobId" of data type "Number" whose value is the decimal numeral of the Unix
nanoseconds divided by 1,000,000 (Go's truncating integer division), and
"WorkerId", "WorkerPubIP", "WorkerPriIP" of data type "String" whose values are
the instance's id, publicIP and privateIP. The instance's name is not sent: the
whole run is the same for every name. -/
theorem SubmitJob_request_delay_and_attributes {σ DOut ROut : Type}
    (client : SQSAPI σ DOut ROut) (now : Int) (queueName : String) (inst : InstanceInfo)
    (fileKey s3bucket : String) (w : World σ SQSCall) (result : GetQueueUrlOutput)
    (herr : (client.GetQueueUrl .TODO { QueueName := some queueName } w.provider).err = none)
    (hres : (client.GetQueueUrl .TODO { QueueName := some queueName } w.provider).resp =
      some result) :
    (∃ request : SendMessageInput,
      (SubmitJob client now queueName inst fileKey s3bucket w).world.calls =
          w.calls ++ [.GetQueueUrl .TODO { QueueName := some queueName },
            .SendMessage .TODO request] ∧
        request.DelaySeconds = 10 ∧
        request.MessageAttributes =
          [ ("JobId", { DataType := some "Number",
                        StringValue := some (toString (Int.tdiv now 1000000)) }),
            ("WorkerId", { DataType := some "String", StringValue := some inst.Id }),
            ("WorkerPubIP", { DataType := some "String", StringValue := some inst.PublicIP }),
            ("WorkerPriIP", { DataType := some "String", StringValue := some inst.PrivateIP }) ]) ∧
    ∀ name : String,
      SubmitJob client now queueName { inst with Name := name } fileKey s3bucket w =
        SubmitJob client now queueName inst fileKey s3bucket w := by
  refine ⟨⟨sMInput now inst fileKey s3bucket result.QueueUrl, ?_, rfl, rfl⟩, fun _ => rfl⟩
  rw [SubmitJob_world_of_resolved client now queueName inst fileKey s3bucket w result herr hres]

/-- Witness of C7: at the clock reading 1700000000123456789 ns the job id sent
for the worker "testId0" is "1700000000123". -/
theorem SubmitJob_request_delay_and_attributes_witness :
    ∃ request : SendMessageInput,
      (SubmitJob (sqsAPIOf resolveJobs sendAccepted) 1700000000123456789 "jobs" workerTest
          "fileKeyValue" "s3bucketName" (freshWorld SQSCall)).world.calls =
          [.GetQueueUrl .TODO { QueueName := some "jobs" }, .SendMessage .TODO request] ∧
        request.DelaySeconds = 10 ∧
        request.MessageAttributes =
          [ ("JobId", { DataType := some "Number", StringValue := some "1700000000123" }),
            ("WorkerId", { DataType := some "String", StringValue := some "testId0" }),
            ("WorkerPubIP", { DataType := some "String", StringValue := some "1.2.3.4" }),
            ("WorkerPriIP", { DataType := some "String", StringValue := some "192.168.0.1" }) ] :=
  (SubmitJob_request_delay_and_attributes (sqsAPIOf resolveJobs sendAccepted) 1700000000123456789
    "jobs" workerTest "fileKeyValue" "s3bucketName" (freshWorld SQSCall)
    { QueueUrl := some "https://queue.example/jobs" } (by decide) (by decide)).1

/-! ## Instance listing -/

/-- The last "Name" tag of a list with one more tag in front. -/
theorem lastNameTag_cons (t : Tag) (rest : List Tag) :
    lastNameTag (t :: rest) =
      (lastNameTag rest).or (if t.Key == some "Name" then some t else none) := by
  by_cases h : t.Key = some "Name" <;>
    simp [lastNameTag, List.find?_append, List.find?_cons, h]

/-- On tags whose dereferenced pointers are present, the tag loop ends with the
value of the last "Name" tag, or with the name it started from if there is no
such tag. -/
theorem nameLoop_of_present (tags : List Tag) :
    ∀ name : String, tagsPresent tags = true →
      ∃ v, nameLoop tags name = .ret v ∧
        match lastNameTag tags with
        | none => v = name
        | some t => t.Value = some v := by
  induction tags with
  | nil => intro name _; exact ⟨name, rfl, rfl⟩
  | cons t rest ih =>
    intro name h
    obtain ⟨key, value⟩ := t
    simp only [tagsPresent, List.all_cons, Bool.and_eq_true] at h
    obtain ⟨⟨hk, hv⟩, hrest⟩ := h
    cases key with
    | none => simp at hk
    | some key =>
      by_cases hname : key = "Name"
      · subst hname
        cases value with
        | none => simp at hv
        | some value =>
          obtain ⟨v, hrun, hlast⟩ := ih value hrest
          refine ⟨v, by simpa [nameLoop] using hrun, ?_⟩
          rw [lastNameTag_cons]
          cases hl : lastNameTag rest with
          | none => rw [hl] at hlast; simp [hlast]
          | some t' => rw [hl] at hlast; simpa using hlast
      · obtain ⟨v, hrun, hlast⟩ := ih name hrest
        refine ⟨v, by simpa [nameLoop, hname] using hrun, ?_⟩
        rw [lastNameTag_cons]
        simpa [hname] using hlast

/-- On tags whose dereferenced pointers are present, the tag loop started from
the empty name computes the specification's name. -/
theorem nameLoop_eq_specName (tags : List Tag) (h : tagsPresent tags = true) :
    ∃ v, nameLoop tags "" = .ret v ∧ specName tags = some v := by
  obtain ⟨v, hrun, hlast⟩ := nameLoop_of_present tags "" h
  refine ⟨v, hrun, ?_⟩
  unfold specName
  cases hl : lastNameTag tags with
  | none => rw [hl] at hlast; simp [hlast]
  | some t => rw [hl] at hlast; simpa using hlast

/-- On instances that carry the dereferenced fields, the instance loop appends
to `ret` one summary per running instance, in order, and nothing else. -/
theorem instanceLoop_of_present (is : List Instance) :
    ∀ ret : List InstanceInfo, is.all instancePresent = true →
      ∃ added, instanceLoop is ret = .ret (ret ++ added) ∧
        List.Forall₂ Describes (is.filter isRunning) added := by
  induction is with
  | nil => intro ret _; exact ⟨[], by simp [instanceLoop], by simp⟩
  | cons i rest ih =>
    intro ret h
    simp only [List.all_cons, Bool.and_eq_true] at h
    obtain ⟨hi, hrest⟩ := h
    obtain ⟨id, pub, pri, state, tags⟩ := i
    cases state with
    | none => simp [instancePresent] at hi
    | some state =>
      by_cases hcode : state.Code = 16
      · have hrun : isRunning ⟨id, pub, pri, some state, tags⟩ = true := by
          simp [isRunning, hcode]
        simp only [instancePresent, hrun, Option.isSome_some, Bool.not_true, Bool.false_or,
          Bool.true_and, Bool.and_eq_true] at hi
        obtain ⟨⟨⟨htags, hid⟩, hpub⟩, hpri⟩ := hi
        obtain ⟨name, hloop, hname⟩ := nameLoop_eq_specName tags htags
        cases id with
        | none => simp at hid
        | some id =>
          cases pub with
          | none => simp at hpub
          | some pub =>
            cases pri with
            | none => simp at hpri
            | some pri =>
              obtain ⟨added, hadd, hrel⟩ := ih
                (ret ++ [{ Name := name, Id := id, PublicIP := pub, PrivateIP := pri }]) hrest
              refine ⟨{ Name := name, Id := id, PublicIP := pub, PrivateIP := pri } :: added,
                ?_, ?_⟩
              · simp [instanceLoop, hcode, hloop, hadd]
              · rw [List.filter_cons_of_pos hrun]
                exact List.Forall₂.cons ⟨rfl, rfl, rfl, hname⟩ hrel
      · have hrun : isRunning ⟨id, pub, pri, some state, tags⟩ = false := by
          simp [isRunning, hcode]
        obtain ⟨added, hadd, hrel⟩ := ih ret hrest
        refine ⟨added, by simp [instanceLoop, hcode, hadd], ?_⟩
        rw [List.filter_cons_of_neg (by simp [hrun])]
        exact hrel

/-- On reservations whose instances carry the dereferenced fields, the
reservation loop appends to `ret` one summary per running instance, in provider
order, and nothing else. -/
theorem reservationLoop_of_present (rs : List Reservation) :
    ∀ ret : List InstanceInfo,
      (rs.map Reservation.Instances).flatten.all instancePresent = true →
      ∃ added, reservationLoop rs ret = .ret (ret ++ added) ∧
        List.Forall₂ Describes ((rs.map Reservation.Instances).flatten.filter isRunning)
          added := by
  induction rs with
  | nil => intro ret _; exact ⟨[], by simp [reservationLoop], by simp⟩
  | cons r rest ih =>
    intro ret h
    simp only [List.map_cons, List.flatten_cons, List.all_append, Bool.and_eq_true] at h
    obtain ⟨hr, hrest⟩ := h
    obtain ⟨first, hfirst, hrel₁⟩ := instanceLoop_of_present r.Instances ret hr
    obtain ⟨more, hmore, hrel₂⟩ := ih (ret ++ first) hrest
    refine ⟨first ++ more, by simp [reservationLoop, hfirst, hmore], ?_⟩
    simp only [List.map_cons, List.flatten_cons, List.filter_append]
    exact List.rel_append hrel₁ hrel₂

/-- On a successful describe call with a well-formed response,
`ListEC2Instances` makes that one call and returns a non-nil list with one
summary per running instance, in provider order. -/
theorem ListEC2Instances_of_wellFormed {σ : Type} (client : EC2DescribeInstancesAPI σ)
    (w : World σ EC2DescribeCall) (result : DescribeInstancesOutput)
    (herr : (client.DescribeInstances .TODO {} w.provider).err = none)
    (hres : (client.DescribeInstances .TODO {} w.provider).resp = some result)
    (hwf : wellFormed result = true) :
    ∃ ret : List InstanceInfo,
      ListEC2Instances client w =
          { world :=
              { provider := (client.DescribeInstances .TODO {} w.provider).next
                calls := w.calls ++ [.DescribeInstances .TODO {}] }
            outcome := .ret (some ret) } ∧
        List.Forall₂ Describes ((allInstances result).filter isRunning) ret := by
  obtain ⟨added, hloop, hrel⟩ := reservationLoop_of_present result.Reservations [] hwf
  refine ⟨added, ?_, hrel⟩
  simp only [List.nil_append] at hloop
  simp [ListEC2Instances, GetInstances, World.call, herr, hres, hloop]

/-- Whatever the provider answers, `ListEC2Instances` returns the nil list
exactly when the describe call returned an error. -/
theorem ListEC2Instances_ret_none_iff {σ : Type} (client : EC2DescribeInstancesAPI σ)
    (w : World σ EC2DescribeCall) :
    (ListEC2Instances client w).outcome = .ret none ↔
      (client.DescribeInstances .TODO {} w.provider).err ≠ none := by
  simp only [ListEC2Instances, GetInstances, World.call]
  cases (client.DescribeInstances .TODO {} w.provider).err with
  | some e => simp
  | none =>
    cases (client.DescribeInstances .TODO {} w.provider).resp with
    | none => simp
    | some result => cases h : reservationLoop result.Reservations [] <;> simp [h]

/-- On tags of which one lacks a dereferenced pointer, the tag loop aborts. -/
theorem nameLoop_of_absent (tags : List Tag) :
    ∀ name : String, tagsPresent tags = false → nameLoop tags name = .nilDeref := by
  induction tags with
  | nil => intro name h; simp [tagsPresent] at h
  | cons t rest ih =>
    intro name h
    obtain ⟨key, value⟩ := t
    cases key with
    | none => simp [nameLoop]
    | some key =>
      by_cases hname : key = "Name"
      · subst hname
        cases value with
        | none => simp [nameLoop]
        | some value =>
          have hrest : tagsPresent rest = false := by
            simpa [tagsPresent] using h
          simpa [nameLoop] using ih value hrest
      · have hrest : tagsPresent rest = false := by
          simpa [tagsPresent, hname] using h
        simpa [nameLoop, hname] using ih name hrest

/-- On instances of which one lacks a dereferenced field, the instance loop
aborts. -/
theorem instanceLoop_of_absent (is : List Instance) :
    ∀ ret : List InstanceInfo, is.all instancePresent = false →
      instanceLoop is ret = .nilDeref := by
  induction is with
  | nil => intro ret h; simp at h
  | cons i rest ih =>
    intro ret h
    obtain ⟨id, pub, pri, state, tags⟩ := i
    cases state with
    | none => simp [instanceLoop]
    | some state =>
      by_cases hcode : state.Code = 16
      · cases htags : tagsPresent tags with
        | false => simp [instanceLoop, hcode, nameLoop_of_absent tags "" htags]
        | true =>
          obtain ⟨name, hloop, -⟩ := nameLoop_eq_specName tags htags
          cases id with
          | none => simp [instanceLoop, hcode, hloop]
          | some id =>
            cases pub with
            | none => simp [instanceLoop, hcode, hloop]
            | some pub =>
              cases pri with
              | none => simp [instanceLoop, hcode, hloop]
              | some pri =>
                have hrest : rest.all instancePresent = false := by
                  simpa [instancePresent, isRunning, hcode, htags] using h
                simpa [instanceLoop, hcode, hloop] using ih _ hrest
      · have hrest : rest.all instancePresent = false := by
          simpa [instancePresent, isRunning, hcode] using h
        simpa [instanceLoop, hcode] using ih ret hrest

/-- On reservations of which one instance lacks a dereferenced field, the
reservation loop aborts. -/
theorem reservationLoop_of_absent (rs : List Reservation) :
    ∀ ret : List InstanceInfo,
      (rs.map Reservation.Instances).flatten.all instancePresent = false →
      reservationLoop rs ret = .nilDeref := by
  induction rs with
  | nil => intro ret h; simp at h
  | cons r rest ih =>
    intro ret h
    cases hr : r.Instances.all instancePresent with
    | false => simp [reservationLoop, instanceLoop_of_absent r.Instances ret hr]
    | true =>
      obtain ⟨first, hfirst, -⟩ := instanceLoop_of_present r.Instances ret hr
      have hrest : (rest.map Reservation.Instances).flatten.all instancePresent = false := by
        simpa [List.all_append, hr] using h
      simpa [reservationLoop, hfirst] using ih (ret ++ first) hrest

/-- On a successful describe call with a response that is not well-formed,
`ListEC2Instances` aborts on a nil pointer dereference. -/
theorem ListEC2Instances_of_not_wellFormed {σ : Type} (client : EC2DescribeInstancesAPI σ)
    (w : World σ EC2DescribeCall) (result : DescribeInstancesOutput)
    (herr : (client.DescribeInstances .TODO {} w.provider).err = none)
    (hres : (client.DescribeInstances .TODO {} w.provider).resp = some result)
    (hwf : wellFormed result = false) :
    (ListEC2Instances client w).outcome = .nilDeref := by
  have hloop := reservationLoop_of_absent result.Reservations [] hwf
  simp [ListEC2Instances, GetInstances, World.call, herr, hres, hloop]

/-- Counterexample to C3 as stated: a successful describe response whose second
running instance (state code 16) has no public IP. ListEC2Instances aborts on
the dereference of the public IP and returns no list at all, so no entry is
returned for either running instance. -/
theorem ListEC2Instances_running_without_publicIP :
    ((describeAPIOf (some fleetWithPrivate) none).DescribeInstances .TODO {} 0).err = none ∧
      ((describeAPIOf (some fleetWithPrivate) none).DescribeInstances .TODO {} 0).resp =
        some fleetWithPrivate ∧
      (allInstances fleetWithPrivate).filter isRunning = [webInstance, privateInstance] ∧
      (ListEC2Instances (describeAPIOf (some fleetWithPrivate) none)
        (freshWorld EC2DescribeCall)).outcome = .nilDeref ∧
      ¬ ∃ ret : Option (List InstanceInfo),
        (ListEC2Instances (describeAPIOf (some fleetWithPrivate) none)
          (freshWorld EC2DescribeCall)).outcome = .ret ret := by
  refine ⟨by decide, by decide, by decide, by decide, ?_⟩
  rintro ⟨ret, h⟩
  have hnil : (ListEC2Instances (describeAPIOf (some fleetWithPrivate) none)
      (freshWorld EC2DescribeCall)).outcome = .nilDeref := by decide
  rw [hnil] at h
  cases h

/-- C3, amended. For every successful describe response in which every instance
carries its state and every instance whose state code is 16 carries its id,
public IP, private IP, the key of each of its tags and the value of each of its
"Name" tags, ListEC2Instances makes the one describe call and returns a non-nil
list that has, in provider order (reservations in order, instances within each
reservation in order), exactly one InstanceInfo per instance whose state code
equals 16 and none for any other instance; each entry's id, publicIP and
privateIP are that instance's values, and its name is the value of the last tag
whose key is "Name", or the empty string if the instance has no such tag. -/
theorem ListEC2Instances_lists_running {σ : Type} (client : EC2DescribeInstancesAPI σ)
    (w : World σ EC2DescribeCall) (result : DescribeInstancesOutput)
    (herr : (client.DescribeInstances .TODO {} w.provider).err = none)
    (hres : (client.DescribeInstances .TODO {} w.provider).resp = some result)
    (hwf : wellFormed result = true) :
    ∃ ret : List InstanceInfo,
      (ListEC2Instances client w).outcome = .ret (some ret) ∧
        (ListEC2Instances client w).world.calls = w.calls ++ [.DescribeInstances .TODO {}] ∧
        List.Forall₂ Describes ((allInstances result).filter isRunning) ret ∧
        ret.length = ((allInstances result).filter isRunning).length := by
  obtain ⟨ret, hrun, hrel⟩ := ListEC2Instances_of_wellFormed client w result herr hres hwf
  exact ⟨ret, by rw [hrun], by rw [hrun], hrel, hrel.length_eq.symm⟩

/-- Witness of C3, amended: of two reservations holding a running instance with
the "Name" tags "old" then "web", a stopped instance without public IP, and a
running instance without a "Name" tag, the listing has the two running ones, in
order, named "web" and "". -/
theorem ListEC2Instances_lists_running_witness :
    wellFormed fleet = true ∧
      (ListEC2Instances (describeAPIOf (some fleet) none) (freshWorld EC2DescribeCall)).outcome =
        .ret (some [ { Name := "web", Id := "i-0a1", PublicIP := "3.4.5.6", PrivateIP := "10.0.0.5" },
          { Name := "", Id := "i-0c3", PublicIP := "3.4.5.7", PrivateIP := "10.0.0.7" } ]) ∧
      ∃ ret : List InstanceInfo,
        (ListEC2Instances (describeAPIOf (some fleet) none)
          (freshWorld EC2DescribeCall)).outcome = .ret (some ret) ∧
        (ListEC2Instances (describeAPIOf (some fleet) none)
          (freshWorld EC2DescribeCall)).world.calls = [.DescribeInstances .TODO {}] ∧
        List.Forall₂ Describes [webInstance, unnamedInstance] ret ∧
        ret.length = 2 :=
  ⟨by decide, by decide,
    ListEC2Instances_lists_running (describeAPIOf (some fleet) none) (freshWorld EC2DescribeCall)
      fleet (by decide) (by decide) (by decide)⟩

/-- Counterexample to C10 as stated: a successful describe response whose only
instance carries no state. No instance of it is running, so every running
instance is well-formed, yet ListEC2Instances aborts on the dereference of the
state and returns no list, where the claim promises the non-nil empty list. -/
theorem ListEC2Instances_stateless_not_empty_list :
    ((describeAPIOf (some statelessFleet) none).DescribeInstances .TODO {} 0).err = none ∧
      ((describeAPIOf (some statelessFleet) none).DescribeInstances .TODO {} 0).resp =
        some statelessFleet ∧
      (allInstances statelessFleet).filter isRunning = [] ∧
      (∀ i ∈ allInstances statelessFleet, isRunning i = true →
        tagsPresent i.Tags = true ∧ i.InstanceId ≠ none ∧ i.PublicIpAddress ≠ none ∧
          i.PrivateIpAddress ≠ none) ∧
      (ListEC2Instances (describeAPIOf (some statelessFleet) none)
        (freshWorld EC2DescribeCall)).outcome = .nilDeref ∧
      (ListEC2Instances (describeAPIOf (some statelessFleet) none)
        (freshWorld EC2DescribeCall)).outcome ≠ .ret (some []) := by
  decide

/-- C10, amended. ListEC2Instances returns nil if and only if the describe call
returns an error. For every successful describe response in which every
instance, running or not, carries its state and every running instance carries
the fields dereferenced on it, the returned list is non-nil, including when no
instance is running, in which case it is the non-nil empty list. -/
theorem ListEC2Instances_nil_iff_error {σ : Type} (client : EC2DescribeInstancesAPI σ)
    (w : World σ EC2DescribeCall) :
    ((ListEC2Instances client w).outcome = .ret none ↔
      (client.DescribeInstances .TODO {} w.provider).err ≠ none) ∧
    (∀ result : DescribeInstancesOutput,
      (client.DescribeInstances .TODO {} w.provider).err = none →
      (client.DescribeInstances .TODO {} w.provider).resp = some result →
      wellFormed result = true →
      ∃ ret : List InstanceInfo, (ListEC2Instances client w).outcome = .ret (some ret)) ∧
    (∀ result : DescribeInstancesOutput,
      (client.DescribeInstances .TODO {} w.provider).err = none →
      (client.DescribeInstances .TODO {} w.provider).resp = some result →
      wellFormed result = true →
      (∀ i ∈ allInstances result, isRunning i = false) →
      (ListEC2Instances client w).outcome = .ret (some [])) := by
  refine ⟨ListEC2Instances_ret_none_iff client w, ?_, ?_⟩
  · intro result herr hres hwf
    obtain ⟨ret, hrun, -⟩ := ListEC2Instances_of_wellFormed client w result herr hres hwf
    exact ⟨ret, by rw [hrun]⟩
  · intro result herr hres hwf hidle
    obtain ⟨ret, hrun, hrel⟩ := ListEC2Instances_of_wellFormed client w result herr hres hwf
    have hnone : (allInstances result).filter isRunning = [] := by
      rw [List.filter_eq_nil_iff]
      intro i hi
      simp [hidle i hi]
    rw [hnone, List.forall₂_nil_left_iff] at hrel
    rw [hrun, hrel]

/-- Witness of C10, amended: a failing describe call gives the nil list; a response with
two running instances gives a non-nil list; a response whose only instance is
stopped gives the non-nil empty list. -/
theorem ListEC2Instances_nil_iff_error_witness :
    (ListEC2Instances (describeAPIOf none (some unauthorizedError))
      (freshWorld EC2DescribeCall)).outcome = .ret none ∧
    (∃ ret : List InstanceInfo,
      (ListEC2Instances (describeAPIOf (some fleet) none)
        (freshWorld EC2DescribeCall)).outcome = .ret (some ret)) ∧
    (ListEC2Instances (describeAPIOf (some idleFleet) none)
      (freshWorld EC2DescribeCall)).outcome = .ret (some []) :=
  ⟨(ListEC2Instances_nil_iff_error (describeAPIOf none (some unauthorizedError))
      (freshWorld EC2DescribeCall)).1.2 (by decide),
    (ListEC2Instances_nil_iff_error (describeAPIOf (some fleet) none)
      (freshWorld EC2DescribeCall)).2.1 fleet (by decide) (by decide) (by decide),
    (ListEC2Instances_nil_iff_error (describeAPIOf (some idleFleet) none)
      (freshWorld EC2DescribeCall)).2.2 idleFleet (by decide) (by decide) (by decide)
      (by decide)⟩

/-- The instance loop does not read the IP pointers of an instance that is not
running: replacing them leaves the run of the loop as it is. -/
theorem instanceLoop_withIdleIPs (pub pri : Instance → Option String) (is : List Instance) :
    ∀ ret : List InstanceInfo,
      instanceLoop (is.map (withIdleIPs pub pri)) ret = instanceLoop is ret := by
  induction is with
  | nil => intro ret; rfl
  | cons i rest ih =>
    intro ret
    obtain ⟨id, ip, pip, state, tags⟩ := i
    cases state with
    | none => simp [withIdleIPs, isRunning, instanceLoop]
    | some state =>
      by_cases hcode : state.Code = 16
      · simp only [List.map_cons, withIdleIPs, isRunning, hcode, beq_self_eq_true, if_true]
        simp only [instanceLoop, hcode, if_true]
        cases nameLoop tags "" with
        | nilDeref => rfl
        | ret name =>
          cases id <;> cases ip <;> cases pip <;> simp [ih]
      · simp [withIdleIPs, isRunning, instanceLoop, hcode, ih]

/-- The reservation loop does not read the IP pointers of an instance that is
not running. -/
theorem reservationLoop_replaceIdleIPs (pub pri : Instance → Option String)
    (rs : List Reservation) :
    ∀ ret : List InstanceInfo,
      reservationLoop
          (rs.map (fun r => { Instances := r.Instances.map (withIdleIPs pub pri) })) ret =
        reservationLoop rs ret := by
  induction rs with
  | nil => intro ret; rfl
  | cons r rest ih =>
    intro ret
    simp only [List.map_cons, reservationLoop, instanceLoop_withIdleIPs]
    cases instanceLoop r.Instances ret with
    | nilDeref => rfl
    | ret ret' => exact ih ret'

/-- A response in which a running instance lacks its public or its private IP is
not well-formed. -/
theorem not_wellFormed_of_running_without_IP (result : DescribeInstancesOutput)
    (h : ∃ i ∈ allInstances result,
      isRunning i = true ∧ (i.PublicIpAddress = none ∨ i.PrivateIpAddress = none)) :
    wellFormed result = false := by
  obtain ⟨i, hi, hrun, hip⟩ := h
  cases hwf : wellFormed result with
  | false => rfl
  | true =>
    have hpres : instancePresent i = true := by
      have := List.all_eq_true.1 hwf i hi
      exact this
    simp only [instancePresent, hrun, Bool.not_true, Bool.false_or, Bool.and_eq_true] at hpres
    obtain ⟨-, ⟨⟨-, -⟩, hpub⟩, hpri⟩ := hpres
    rcases hip with h | h
    · simp [h] at hpub
    · simp [h] at hpri

/-- After a describe call with a nil error and a result, what `ListEC2Instances`
returns is decided by the reservation loop. -/
theorem ListEC2Instances_outcome_of_success {σ : Type} (client : EC2DescribeInstancesAPI σ)
    (w : World σ EC2DescribeCall) (result : DescribeInstancesOutput)
    (herr : (client.DescribeInstances .TODO {} w.provider).err = none)
    (hres : (client.DescribeInstances .TODO {} w.provider).resp = some result) :
    (ListEC2Instances client w).outcome =
      match reservationLoop result.Reservations [] with
      | .nilDeref => .nilDeref
      | .ret ret => .ret (some ret) := by
  simp only [ListEC2Instances, GetInstances, World.call, herr, hres]
  cases h : reservationLoop result.Reservations [] <;> simp [h]

/-- C11. For every successful describe response that contains at least one
instance with state code 16 whose public IP or private IP is absent,
ListEC2Instances aborts on a nil pointer dereference instead of returning a
list. An absent public or private IP on an instance whose state code is not 16
never causes a failure: whatever the IP pointers of the instances that are not
running are replaced by (nil included), ListEC2Instances ends as it does on the
response given. -/
theorem ListEC2Instances_aborts_on_running_without_IP {σ : Type}
    (client : EC2DescribeInstancesAPI σ) (w : World σ EC2DescribeCall)
    (result : DescribeInstancesOutput)
    (herr : (client.DescribeInstances .TODO {} w.provider).err = none)
    (hres : (client.DescribeInstances .TODO {} w.provider).resp = some result) :
    ((∃ i ∈ allInstances result,
        isRunning i = true ∧ (i.PublicIpAddress = none ∨ i.PrivateIpAddress = none)) →
      (ListEC2Instances client w).outcome = .nilDeref ∧
        ¬ ∃ ret : Option (List InstanceInfo), (ListEC2Instances client w).outcome = .ret ret) ∧
    (∀ (client' : EC2DescribeInstancesAPI σ) (w' : World σ EC2DescribeCall)
        (pub pri : Instance → Option String),
      (client'.DescribeInstances .TODO {} w'.provider).err = none →
      (client'.DescribeInstances .TODO {} w'.provider).resp =
        some (replaceIdleIPs pub pri result) →
      (ListEC2Instances client' w').outcome = (ListEC2Instances client w).outcome) := by
  constructor
  · intro h
    have hnil := ListEC2Instances_of_not_wellFormed client w result herr hres
      (not_wellFormed_of_running_without_IP result h)
    refine ⟨hnil, ?_⟩
    rintro ⟨ret, hret⟩
    rw [hnil] at hret
    cases hret
  · intro client' w' pub pri herr' hres'
    rw [ListEC2Instances_outcome_of_success client' w' _ herr' hres',
      ListEC2Instances_outcome_of_success client w result herr hres]
    simp only [replaceIdleIPs, reservationLoop_replaceIdleIPs]

/-- Witness of C11: the listing aborts on the response whose second running
instance has no public IP; and it returns the same two summaries whether the
stopped instance of the response reports a public IP or none. -/
theorem ListEC2Instances_aborts_on_running_without_IP_witness :
    (∃ i ∈ allInstances fleetWithPrivate,
      isRunning i = true ∧ (i.PublicIpAddress = none ∨ i.PrivateIpAddress = none)) ∧
    (ListEC2Instances (describeAPIOf (some fleetWithPrivate) none)
      (freshWorld EC2DescribeCall)).outcome = .nilDeref ∧
    replaceIdleIPs (fun _ => none) (fun i => i.PrivateIpAddress) fleetWithStoppedIPs = fleet ∧
    (ListEC2Instances (describeAPIOf (some fleet) none) (freshWorld EC2DescribeCall)).outcome =
      (ListEC2Instances (describeAPIOf (some fleetWithStoppedIPs) none)
        (freshWorld EC2DescribeCall)).outcome :=
  ⟨⟨privateInstance, by decide, by decide, Or.inl rfl⟩,
    ((ListEC2Instances_aborts_on_running_without_IP (describeAPIOf (some fleetWithPrivate) none)
      (freshWorld EC2DescribeCall) fleetWithPrivate (by decide) (by decide)).1
      ⟨privateInstance, by decide, by decide, Or.inl rfl⟩).1,
    by decide,
    (ListEC2Instances_aborts_on_running_without_IP (describeAPIOf (some fleetWithStoppedIPs) none)
      (freshWorld EC2DescribeCall) fleetWithStoppedIPs (by decide) (by decide)).2
      (describeAPIOf (some fleet) none) (freshWorld EC2DescribeCall)
      (fun _ => none) (fun i => i.PrivateIpAddress) (by decide) (by decide)⟩

/-! ## Long polling -/

/-- Counterexample to C12 as stated: with waitTime = 4294967297 (2^32 + 1, a
value of a 64-bit Go int) the one receive request made by GetLPMessagesByURL
carries a wait time of 1 second, not of waitTime seconds. -/
theorem GetLPMessagesByURL_wait_wraps :
    (GetLPMessagesByURL (sqsAPIOf resolveJobs sendAccepted) "https://queue.example/jobs" 10
        4294967297 (freshWorld SQSCall)).world.calls =
        [.ReceiveMessage .TODO
          { QueueUrl := some "https://queue.example/jobs"
            AttributeNames := ["SentTimestamp"]
            MaxNumberOfMessages := 1
            MessageAttributeNames := ["All"]
            WaitTimeSeconds := 1 }] ∧
      (1 : Int) ≠ 4294967297 := by
  decide

/-- C12, amended. For every queue URL, msgNum and waitTime, GetLPMessagesByURL
makes exactly one receive call whose request has the given queue URL, a maximum
of 1 message (independent of msgNum), message-attribute names ["All"], attribute
names ["SentTimestamp"], and a wait time of int32(waitTime) seconds, the low 32
bits of waitTime read as a signed number, which is waitTime itself whenever
-2^31 ≤ waitTime < 2^31; and it returns that call's result and error
unchanged. -/
theorem GetLPMessagesByURL_single_receive {σ DOut ROut : Type}
    (client : SQSAPI σ DOut ROut) (queueURL : String) (msgNum waitTime : Int)
    (w : World σ SQSCall) :
    GetLPMessagesByURL client queueURL msgNum waitTime w =
        { world :=
            { provider := (client.ReceiveMessage .TODO
                { QueueUrl := some queueURL, AttributeNames := ["SentTimestamp"],
                  MaxNumberOfMessages := 1, MessageAttributeNames := ["All"],
                  WaitTimeSeconds := (waitTime + 2147483648) % 4294967296 - 2147483648 } w.provider).next
              calls := w.calls ++ [.ReceiveMessage .TODO
                { QueueUrl := some queueURL, AttributeNames := ["SentTimestamp"],
                  MaxNumberOfMessages := 1, MessageAttributeNames := ["All"],
                  WaitTimeSeconds := (waitTime + 2147483648) % 4294967296 - 2147483648 }] }
          resp := (client.ReceiveMessage .TODO
            { QueueUrl := some queueURL, AttributeNames := ["SentTimestamp"],
                  MaxNumberOfMessages := 1, MessageAttributeNames := ["All"],
                  WaitTimeSeconds := (waitTime + 2147483648) % 4294967296 - 2147483648 } w.provider).resp
          err := (client.ReceiveMessage .TODO
            { QueueUrl := some queueURL, AttributeNames := ["SentTimestamp"],
                  MaxNumberOfMessages := 1, MessageAttributeNames := ["All"],
                  WaitTimeSeconds := (waitTime + 2147483648) % 4294967296 - 2147483648 } w.provider).err } ∧
      (-2147483648 ≤ waitTime → waitTime < 2147483648 →
        (waitTime + 2147483648) % 4294967296 - 2147483648 = waitTime) := by
  refine ⟨rfl, ?_⟩
  intro hlo hhi
  omega

/-- Witness of C12, amended: a 20-second long poll is one receive call with a
wait time of 20 seconds, whatever msgNum is, and the provider's reply comes back
as it is. -/
theorem GetLPMessagesByURL_single_receive_witness :
    GetLPMessagesByURL (sqsAPIOf resolveJobs sendAccepted) "https://queue.example/jobs" 10 20
        (freshWorld SQSCall) =
        { world :=
            { provider := 1
              calls := [.ReceiveMessage .TODO
                { QueueUrl := some "https://queue.example/jobs"
                  AttributeNames := ["SentTimestamp"]
                  MaxNumberOfMessages := 1
                  MessageAttributeNames := ["All"]
                  WaitTimeSeconds := 20 }] }
          resp := some ()
          err := none } ∧
      ((20 : Int) + 2147483648) % 4294967296 - 2147483648 = 20 :=
  ⟨(GetLPMessagesByURL_single_receive (sqsAPIOf resolveJobs sendAccepted)
      "https://queue.example/jobs" 10 20 (freshWorld SQSCall)).1,
    (GetLPMessagesByURL_single_receive (sqsAPIOf resolveJobs sendAccepted)
      "https://queue.example/jobs" 10 20 (freshWorld SQSCall)).2 (by decide) (by decide)⟩

end utils
